import Mathlib

/-!
Shallow embedding of the cost-estimation engine of the `costing` backend
(`src/route/cost/estimate/{mod,cost_calculator,linked_cost_item,request,response}.rs`).

Machine floats (`f64`) are modelled by the rationals `ℚ`: every arithmetic
operation the engine performs (addition, multiplication, division, integer
powers) is exact over `ℚ`, and every concrete value appearing in the claims
(120.0, 450.0, 45.0, the default Lang/opex factors, …) is exactly
representable, so the embedding agrees with the `f64` computation on the
scenarios considered.  Rust `HashMap`s are modelled by association lists with
last-insertion-wins lookup, and `HashSet`s of names by deduplicated lists;
set-iteration order (unspecified in Rust) is fixed to first-occurrence order.
-/

/-- Modelled from the spec: the `cost_library` crate (data model of a cost
library) is not under `src/`; §3 of the spec describes a scaling factor as a
(name, unit, source value) triple used by the linear formula. -/
structure CostScalingFactor where
  name : String
  units : String
  source_value : ℚ
deriving DecidableEq

/-- Modelled from the spec: one term of a `Polynomial` capital-cost formula,
either a constant or a (dimension name, coefficient, exponent) term, as used
by `calculate_capex_cost` in `cost_calculator.rs`. -/
inductive PolynomialPart where
  | Variable (dimension_name : String) (coefficient : ℚ) (exponent : ℚ)
  | Constant (value : ℚ)
deriving DecidableEq

/-- Modelled from the spec: the capital-cost formula tag,
`Linear{base_cost}` or `Polynomial{parameters}` (§3, §9 of the spec). -/
inductive Cost where
  | Linear (base_cost : ℚ)
  | Polynomial (parameters : List PolynomialPart)
deriving DecidableEq

/-- Modelled from the spec: the capital-cost contribution of a reference item
(a formula, a source year and a source currency, §3 of the spec). -/
structure CapexContribution where
  year : ℤ
  currency : String
  cost : Cost
deriving DecidableEq

/-- Modelled from the spec: the cost-type classifier distinguishing
"direct equipment cost" items from "total installed cost" items (§3). -/
inductive CostReferenceItemCostType where
  | DirectEquipmentCost
  | TotalInstalledCost
deriving DecidableEq

/-- The `Default` of the classifier.  The repository's own end-to-end test
(`test_can_create_estimate` in `mod.rs`) builds an item with
`info: Default::default()` and asserts `direct_equipment_cost: Some(120.0)`,
which forces the default to be `DirectEquipmentCost`. -/
instance : Inhabited CostReferenceItemCostType := ⟨.DirectEquipmentCost⟩

/-- Modelled from the spec: a variable-operating-cost contribution
(a category name and a scale factor, §3). -/
structure VariableOpexContribution where
  name : String
  scaled_by : ℚ
deriving DecidableEq

/-- Modelled from the spec: the `info` block of a reference item carrying the
optional cost-type classifier (used via `unwrap_or_default()` in
`cost_calculator.rs`). -/
structure CostReferenceItemInfo where
  cost_type : Option CostReferenceItemCostType
deriving DecidableEq

/-- Modelled from the spec: one catalog entry of the library (§3). -/
structure CostReferenceItem where
  id : String
  info : CostReferenceItemInfo
  scaling_factors : List CostScalingFactor
  capex_contribution : CapexContribution
  variable_opex_contributions : List VariableOpexContribution
deriving DecidableEq

/-- Modelled from the spec: a module holding cost reference items (§3).
The module definition/subtype fields play no role in estimation and are
omitted. -/
structure CostModule where
  id : String
  cost_items : List CostReferenceItem
deriving DecidableEq

/-- Modelled from the spec: the currency table — base currency code and a map
from currency code to rate relative to base (§3). -/
structure CurrencyConversionRates where
  base_currency : String
  rates : List (String × ℚ)
deriving DecidableEq

/-- Modelled from the spec: the inflation table — a map from year-as-string
to inflation factor (§3). -/
structure InflationRates where
  current_year : String
  factors : List (String × ℚ)
deriving DecidableEq

/-- Modelled from the spec: a cost library version (§3). -/
structure CostLibrary where
  modules : List CostModule
  currency_conversion : CurrencyConversionRates
  inflation : InflationRates
deriving DecidableEq

/-- `HashMap` lookup on an association list built by collecting an iterator:
in Rust a later insertion overwrites an earlier one, so the LAST binding of a
key wins. -/
def mapGet {α : Type} (m : List (String × α)) (k : String) : Option α :=
  (m.reverse.find? (fun kv => kv.1 == k)).map (fun kv => kv.2)

/-- `request.rs`: `pub type Parameters = HashMap<String, f64>`. -/
def Parameters : Type := List (String × ℚ)

/-- `parameters.get(name)` on the supplied-parameter map. -/
def Parameters.get (p : Parameters) (k : String) : Option ℚ := mapGet p k

/-- The keys of the supplied-parameter map. -/
def Parameters.keys (p : Parameters) : List String := p.map (fun kv => kv.1)

-- ## request.rs

/-- `request.rs` `Timeline`: six years (modelled as `ℤ`; the source uses
`i16`, and no claim involves overflow). -/
structure Timeline where
  construction_start : ℤ
  construction_finish : ℤ
  operation_start : ℤ
  operation_finish : ℤ
  decommissioning_start : ℤ
  decommissioning_finish : ℤ
deriving DecidableEq

/-- Rust `RangeInclusive<i16>` iteration `lo..=hi` as a list
(empty when `lo > hi`). -/
def yearRange (lo hi : ℤ) : List ℤ :=
  (List.range (hi + 1 - lo).toNat).map (fun i : ℕ => lo + (i : ℤ))

/-- Rust `RangeInclusive::len()` (0 when `lo > hi`). -/
def rangeLen (lo hi : ℤ) : ℕ := (hi + 1 - lo).toNat

/-- Rust `RangeInclusive::contains` for `lo..=hi`. -/
def rangeContains (lo hi y : ℤ) : Bool := decide (lo ≤ y ∧ y ≤ hi)

def Timeline.start (t : Timeline) : ℤ := t.construction_start

def Timeline.end_ (t : Timeline) : ℤ := t.decommissioning_finish

def Timeline.range (t : Timeline) : List ℤ := yearRange t.start t.end_

namespace Timeline

def construction_contains (t : Timeline) (y : ℤ) : Bool :=
  rangeContains t.construction_start t.construction_finish y

def operation_contains (t : Timeline) (y : ℤ) : Bool :=
  rangeContains t.operation_start t.operation_finish y

def decommissioning_contains (t : Timeline) (y : ℤ) : Bool :=
  rangeContains t.decommissioning_start t.decommissioning_finish y

def construction_len (t : Timeline) : ℕ :=
  rangeLen t.construction_start t.construction_finish

def decommissioning_len (t : Timeline) : ℕ :=
  rangeLen t.decommissioning_start t.decommissioning_finish

end Timeline

/-- `request.rs` `CostParameter`. -/
structure CostParameter where
  currency_code : String
  amount : ℚ
deriving DecidableEq

/-- `request.rs` `CapexLangFactors`: the 12 Lang multipliers. -/
structure CapexLangFactors where
  equipment_erection : ℚ
  piping : ℚ
  instrumentation : ℚ
  electrical : ℚ
  buildings_and_process : ℚ
  utilities : ℚ
  storages : ℚ
  site_development : ℚ
  ancillary_buildings : ℚ
  design_and_engineering : ℚ
  contractors_fee : ℚ
  contingency : ℚ
deriving DecidableEq

/-- `request.rs` `impl Default for CapexLangFactors`. -/
def CapexLangFactors.default : CapexLangFactors :=
  { equipment_erection := 4/10
    piping := 7/10
    instrumentation := 2/10
    electrical := 1/10
    buildings_and_process := 15/100
    utilities := 5/10
    storages := 15/100
    site_development := 5/100
    ancillary_buildings := 15/100
    design_and_engineering := 3/10
    contractors_fee := 5/100
    contingency := 1 }

/-- `request.rs` `FixedOpexFactors`: the 6 fixed-opex multipliers. -/
structure FixedOpexFactors where
  maintenance : ℚ
  control_room_facilities : ℚ
  insurance_liability : ℚ
  insurance_equipment_loss : ℚ
  cost_of_capital : ℚ
  major_turnarounds : ℚ
deriving DecidableEq

/-- `request.rs` `impl Default for FixedOpexFactors`. -/
def FixedOpexFactors.default : FixedOpexFactors :=
  { maintenance := 8/100
    control_room_facilities := 0
    insurance_liability := 0
    insurance_equipment_loss := 0
    cost_of_capital := 0
    major_turnarounds := 0 }

/-- `request.rs` `CostItemParameters`. -/
structure CostItemParameters where
  id : String
  cost_item_ref : String
  quantity : ℕ
  parameters : Parameters

/-- `request.rs` `AssetParameters`. -/
structure AssetParameters where
  id : String
  timeline : Timeline
  labour_average_salary : CostParameter
  fte_personnel : ℚ
  asset_uptime : ℚ
  capex_lang_factors : CapexLangFactors
  opex_factors : FixedOpexFactors
  cost_items : List CostItemParameters
  discount_rate : ℚ

-- ## response.rs: errors

/-- `response.rs` `MissingProperty`. -/
structure MissingProperty where
  id : String
  property : String
deriving DecidableEq

/-- `response.rs` `CostEstimateError` (each payload struct inlined as the
constructor's field). -/
inductive CostEstimateError where
  | MissingProperties (properties : List MissingProperty)
  | UnknownCostItem (id : String)
  | UnknownCurrencyConversion (currency : String)
  | UnknownInflationFactor (year : String)
deriving DecidableEq

/-- `response.rs` `CostEstimateError::combine`.  Each Rust or-pattern arm
`(_, K(a)) | (K(a), _)` is split into two consecutive arms, left alternative
first, preserving Rust's first-match semantics. -/
def CostEstimateError.combine : CostEstimateError → CostEstimateError → CostEstimateError
  | .MissingProperties a, .MissingProperties b => .MissingProperties (a ++ b)
  | _, .UnknownCostItem a => .UnknownCostItem a
  | .UnknownCostItem a, _ => .UnknownCostItem a
  | _, .UnknownCurrencyConversion a => .UnknownCurrencyConversion a
  | .UnknownCurrencyConversion a, _ => .UnknownCurrencyConversion a
  | _, .UnknownInflationFactor a => .UnknownInflationFactor a
  | .UnknownInflationFactor a, _ => .UnknownInflationFactor a

/-- `errors.into_iter().reduce(|acc, err| acc.combine(err)).unwrap()` on a
non-empty error list, given as head plus tail. -/
def combineErrors (e : CostEstimateError) : List CostEstimateError → CostEstimateError
  | [] => e
  | e2 :: rest => combineErrors (e.combine e2) rest

-- ## response.rs: cost structures

/-- `response.rs` `VariableOpexCostEstimate`: the 9 variable-opex categories. -/
structure VariableOpexCostEstimate where
  electrical_power : ℚ
  cooling_water : ℚ
  natural_gas : ℚ
  steam_hp_superheated : ℚ
  steam_lp_saturated : ℚ
  catalysts_and_chemicals : ℚ
  equipment_item_rental : ℚ
  cost_per_tonne_of_co2 : ℚ
  tariff : ℚ
deriving DecidableEq

namespace VariableOpexCostEstimate

/-- `derive Default`: all categories zero. -/
def default : VariableOpexCostEstimate := ⟨0, 0, 0, 0, 0, 0, 0, 0, 0⟩

/-- `derive Add`: componentwise. -/
def add (a b : VariableOpexCostEstimate) : VariableOpexCostEstimate :=
  ⟨a.electrical_power + b.electrical_power, a.cooling_water + b.cooling_water,
   a.natural_gas + b.natural_gas, a.steam_hp_superheated + b.steam_hp_superheated,
   a.steam_lp_saturated + b.steam_lp_saturated,
   a.catalysts_and_chemicals + b.catalysts_and_chemicals,
   a.equipment_item_rental + b.equipment_item_rental,
   a.cost_per_tonne_of_co2 + b.cost_per_tonne_of_co2, a.tariff + b.tariff⟩

/-- `derive Mul` by a scalar: componentwise. -/
def scale (a : VariableOpexCostEstimate) (q : ℚ) : VariableOpexCostEstimate :=
  ⟨a.electrical_power * q, a.cooling_water * q, a.natural_gas * q,
   a.steam_hp_superheated * q, a.steam_lp_saturated * q,
   a.catalysts_and_chemicals * q, a.equipment_item_rental * q,
   a.cost_per_tonne_of_co2 * q, a.tariff * q⟩

/-- `derive Div` by a scalar: componentwise. -/
def divBy (a : VariableOpexCostEstimate) (q : ℚ) : VariableOpexCostEstimate :=
  ⟨a.electrical_power / q, a.cooling_water / q, a.natural_gas / q,
   a.steam_hp_superheated / q, a.steam_lp_saturated / q,
   a.catalysts_and_chemicals / q, a.equipment_item_rental / q,
   a.cost_per_tonne_of_co2 / q, a.tariff / q⟩

end VariableOpexCostEstimate

/-- `response.rs` `LangFactoredCostEstimate`. -/
structure LangFactoredCostEstimate where
  equipment_erection : ℚ
  piping : ℚ
  instrumentation : ℚ
  electrical : ℚ
  buildings_and_process : ℚ
  utilities : ℚ
  storages : ℚ
  site_development : ℚ
  ancillary_buildings : ℚ
  design_and_engineering : ℚ
  contractors_fee : ℚ
  contingency : ℚ
deriving DecidableEq

namespace LangFactoredCostEstimate

def default : LangFactoredCostEstimate := ⟨0, 0, 0, 0, 0, 0, 0, 0, 0, 0, 0, 0⟩

/-- `LangFactoredCostEstimate::total`. -/
def total (a : LangFactoredCostEstimate) : ℚ :=
  a.equipment_erection + a.piping + a.instrumentation + a.electrical
    + a.buildings_and_process + a.utilities + a.storages + a.site_development
    + a.ancillary_buildings + a.design_and_engineering + a.contractors_fee
    + a.contingency

def add (a b : LangFactoredCostEstimate) : LangFactoredCostEstimate :=
  ⟨a.equipment_erection + b.equipment_erection, a.piping + b.piping,
   a.instrumentation + b.instrumentation, a.electrical + b.electrical,
   a.buildings_and_process + b.buildings_and_process, a.utilities + b.utilities,
   a.storages + b.storages, a.site_development + b.site_development,
   a.ancillary_buildings + b.ancillary_buildings,
   a.design_and_engineering + b.design_and_engineering,
   a.contractors_fee + b.contractors_fee, a.contingency + b.contingency⟩

def divBy (a : LangFactoredCostEstimate) (q : ℚ) : LangFactoredCostEstimate :=
  ⟨a.equipment_erection / q, a.piping / q, a.instrumentation / q,
   a.electrical / q, a.buildings_and_process / q, a.utilities / q,
   a.storages / q, a.site_development / q, a.ancillary_buildings / q,
   a.design_and_engineering / q, a.contractors_fee / q, a.contingency / q⟩

end LangFactoredCostEstimate

/-- `response.rs` `FixedOpexCostEstimate`. -/
structure FixedOpexCostEstimate where
  maintenance : ℚ
  control_room_facilities : ℚ
  insurance_liability : ℚ
  insurance_equipment_loss : ℚ
  cost_of_capital : ℚ
  major_turnarounds : ℚ
deriving DecidableEq

namespace FixedOpexCostEstimate

def default : FixedOpexCostEstimate := ⟨0, 0, 0, 0, 0, 0⟩

def add (a b : FixedOpexCostEstimate) : FixedOpexCostEstimate :=
  ⟨a.maintenance + b.maintenance,
   a.control_room_facilities + b.control_room_facilities,
   a.insurance_liability + b.insurance_liability,
   a.insurance_equipment_loss + b.insurance_equipment_loss,
   a.cost_of_capital + b.cost_of_capital,
   a.major_turnarounds + b.major_turnarounds⟩

def divBy (a : FixedOpexCostEstimate) (q : ℚ) : FixedOpexCostEstimate :=
  ⟨a.maintenance / q, a.control_room_facilities / q, a.insurance_liability / q,
   a.insurance_equipment_loss / q, a.cost_of_capital / q,
   a.major_turnarounds / q⟩

end FixedOpexCostEstimate

/-- `response.rs` `add_options`: `Some+Some` adds, one side present wins,
both absent stays absent. -/
def add_options (a b : Option ℚ) : Option ℚ :=
  match a, b with
  | some a, some b => some (a + b)
  | some v, none => some v
  | none, some v => some v
  | none, none => none

/-- `response.rs` `CostItemCosts`. -/
structure CostItemCosts where
  direct_equipment_cost : Option ℚ
  total_installed_cost : Option ℚ
  variable_opex_cost_per_year : VariableOpexCostEstimate
deriving DecidableEq

/-- `response.rs` `CostItemPeriodCosts`. -/
structure CostItemPeriodCosts where
  direct_equipment_cost : Option ℚ
  total_installed_cost : Option ℚ
  variable_opex_cost : VariableOpexCostEstimate
deriving DecidableEq

namespace CostItemPeriodCosts

def default : CostItemPeriodCosts := ⟨none, none, VariableOpexCostEstimate.default⟩

/-- `impl Add for CostItemPeriodCosts` (optional fields via `add_options`). -/
def add (a b : CostItemPeriodCosts) : CostItemPeriodCosts :=
  ⟨add_options a.direct_equipment_cost b.direct_equipment_cost,
   add_options a.total_installed_cost b.total_installed_cost,
   a.variable_opex_cost.add b.variable_opex_cost⟩

/-- `impl Div<f64> for CostItemPeriodCosts`. -/
def divBy (a : CostItemPeriodCosts) (q : ℚ) : CostItemPeriodCosts :=
  ⟨a.direct_equipment_cost.map (fun v => v / q),
   a.total_installed_cost.map (fun v => v / q),
   a.variable_opex_cost.divBy q⟩

end CostItemPeriodCosts

/-- `response.rs` `AssetPeriodCosts`. -/
structure AssetPeriodCosts where
  direct_equipment_cost : ℚ
  lang_factored_capital_cost : LangFactoredCostEstimate
  total_installed_cost : ℚ
  fixed_opex_cost : FixedOpexCostEstimate
  variable_opex_cost : VariableOpexCostEstimate
  decommissioning_cost : ℚ
deriving DecidableEq

namespace AssetPeriodCosts

def default : AssetPeriodCosts :=
  ⟨0, LangFactoredCostEstimate.default, 0, FixedOpexCostEstimate.default,
   VariableOpexCostEstimate.default, 0⟩

def add (a b : AssetPeriodCosts) : AssetPeriodCosts :=
  ⟨a.direct_equipment_cost + b.direct_equipment_cost,
   a.lang_factored_capital_cost.add b.lang_factored_capital_cost,
   a.total_installed_cost + b.total_installed_cost,
   a.fixed_opex_cost.add b.fixed_opex_cost,
   a.variable_opex_cost.add b.variable_opex_cost,
   a.decommissioning_cost + b.decommissioning_cost⟩

def divBy (a : AssetPeriodCosts) (q : ℚ) : AssetPeriodCosts :=
  ⟨a.direct_equipment_cost / q, a.lang_factored_capital_cost.divBy q,
   a.total_installed_cost / q, a.fixed_opex_cost.divBy q,
   a.variable_opex_cost.divBy q, a.decommissioning_cost / q⟩

end AssetPeriodCosts

/-- `response.rs` `AssetCosts`. -/
structure AssetCosts where
  direct_equipment_cost : ℚ
  lang_factored_capital_cost : LangFactoredCostEstimate
  total_installed_cost : ℚ
  fixed_opex_cost_per_year : FixedOpexCostEstimate
  variable_opex_cost_per_year : VariableOpexCostEstimate
  decommissioning_cost : ℚ
deriving DecidableEq

-- ## cost_calculator.rs

/-- `mod.rs` `CostEstimateOptionsInternal`. -/
structure CostEstimateOptionsInternal where
  target_currency_rate : ℚ
deriving DecidableEq

/-- Rust `Iterator::reduce`: `none` on an empty list, otherwise a left fold
starting from the first element. -/
def listReduce {α : Type} (f : α → α → α) : List α → Option α
  | [] => none
  | x :: xs => some (xs.foldl f x)

/-- `cost_calculator.rs` `product_or_none`. -/
def product_or_none (acc next : Option ℚ) : Option ℚ :=
  match acc, next with
  | some a, some b => some (a * b)
  | _, _ => none

/-- `cost_calculator.rs` `sum_or_none`. -/
def sum_or_none (acc next : Option ℚ) : Option ℚ :=
  match acc, next with
  | some a, some b => some (a + b)
  | _, _ => none

/-- `cost_calculator.rs` `get_currency_factor`. -/
def get_currency_factor (cost_library : CostLibrary) (currency : String)
    (options : CostEstimateOptionsInternal) : Except CostEstimateError ℚ :=
  match mapGet cost_library.currency_conversion.rates currency with
  | some rate => .ok (rate * options.target_currency_rate)
  | none => .error (.UnknownCurrencyConversion currency)

/-- `cost_calculator.rs` `get_inflation_factor`. -/
def get_inflation_factor (cost_library : CostLibrary) (year : String) :
    Except CostEstimateError ℚ :=
  match mapGet cost_library.inflation.factors year with
  | some factor => .ok factor
  | none => .error (.UnknownInflationFactor year)

/-- Result of a computation that can return a value, fail with a
`CostEstimateError`, or abort via the Rust `expect`/panic path. -/
inductive Outcome (α : Type) where
  | ok (v : α)
  | err (e : CostEstimateError)
  | panic
deriving DecidableEq

def Outcome.bind {α β : Type} : Outcome α → (α → Outcome β) → Outcome β
  | .ok v, f => f v
  | .err e, _ => .err e
  | .panic, _ => .panic

def Outcome.ofExcept {α : Type} : Except CostEstimateError α → Outcome α
  | .ok v => .ok v
  | .error e => .err e

/-- `cost_reference_item.info.cost_type.unwrap_or_default()`. -/
def costTypeOrDefault (cost_reference_item : CostReferenceItem) :
    CostReferenceItemCostType :=
  cost_reference_item.info.cost_type.getD default

/-- The `cost` computation of `calculate_capex_cost` (`cost_calculator.rs`
lines 162-189) before the `.expect(...)`: `none` is the value on which the
`expect` would panic. -/
def capexCostOpt (cost_reference_item : CostReferenceItem)
    (parameters : Parameters) : Option ℚ :=
  match cost_reference_item.capex_contribution.cost with
  | .Linear base_cost =>
    let scale_factor :=
      (listReduce product_or_none
        (cost_reference_item.scaling_factors.map (fun factor =>
          (Parameters.get parameters factor.name).map
            (fun v => v / factor.source_value)))).getD (some 1)
    scale_factor.map (fun s => base_cost * s)
  | .Polynomial parts =>
    (listReduce sum_or_none
      (parts.map (fun part =>
        match part with
        | .Variable dimension_name coefficient exponent =>
          (Parameters.get parameters dimension_name).map
            (fun value => coefficient * value * exponent)
        | .Constant value => some value))).getD (some 0)

/-- `cost_calculator.rs` `calculate_capex_cost` (the `impl` for
`CostLibrary`).  The `.expect(...)` on a `None` cost is the `panic` outcome;
it fires before the currency/inflation lookups, as in the source. -/
def calculate_capex_cost (cost_library : CostLibrary)
    (cost_reference_item : CostReferenceItem) (parameters : Parameters)
    (options : CostEstimateOptionsInternal) : Outcome (Option ℚ) :=
  match capexCostOpt cost_reference_item parameters with
  | none => .panic
  | some cost =>
    match get_currency_factor cost_library
        cost_reference_item.capex_contribution.currency options with
    | .error e => .err e
    | .ok conversion_factor =>
      match get_inflation_factor cost_library
          (toString cost_reference_item.capex_contribution.year) with
      | .error e => .err e
      | .ok inflation_factor =>
        .ok (some (cost * conversion_factor * inflation_factor))

/-- `cost_calculator.rs` `calculate_direct_equipment_cost`. -/
def calculate_direct_equipment_cost (cost_library : CostLibrary)
    (cost_reference_item : CostReferenceItem) (parameters : Parameters)
    (options : CostEstimateOptionsInternal) : Outcome (Option ℚ) :=
  if costTypeOrDefault cost_reference_item = .DirectEquipmentCost then
    calculate_capex_cost cost_library cost_reference_item parameters options
  else
    .ok none

/-- `cost_calculator.rs` `calculate_total_installed_cost`. -/
def calculate_total_installed_cost (cost_library : CostLibrary)
    (cost_reference_item : CostReferenceItem) (parameters : Parameters)
    (options : CostEstimateOptionsInternal) : Outcome (Option ℚ) :=
  if costTypeOrDefault cost_reference_item = .TotalInstalledCost then
    calculate_capex_cost cost_library cost_reference_item parameters options
  else
    .ok none

/-- `cost_calculator.rs`: `const YEAR_COUNT: f64 = 20.0`. -/
def YEAR_COUNT : ℚ := 20

/-- `cost_calculator.rs`: `24.0 * 365.0 * 0.95` operational hours per year. -/
def OPERATIONAL_HOURS_PER_YEAR : ℚ := 24 * 365 * (95/100)

/-- `cost_calculator.rs` `calculate_variable_opex_cost_item`. -/
def calculate_variable_opex_cost_item (cost_library : CostLibrary)
    (cost_reference_item : CostReferenceItem) (parameters : Parameters)
    (item : String) (cost_per_unit : ℚ)
    (options : CostEstimateOptionsInternal) :
    Except CostEstimateError (Option ℚ) :=
  match cost_reference_item.variable_opex_contributions.find?
      (fun voc => voc.name == item) with
  | none => .ok none
  | some variable_opex_contribution =>
    match Parameters.get parameters item with
    | none => .ok none
    | some value =>
      match get_currency_factor cost_library
          cost_reference_item.capex_contribution.currency options with
      | .error e => .error e
      | .ok conversion_factor =>
        match get_inflation_factor cost_library
            (toString cost_reference_item.capex_contribution.year) with
        | .error e => .error e
        | .ok inflation_factor =>
          .ok (some (value * variable_opex_contribution.scaled_by
            * cost_per_unit * conversion_factor * inflation_factor
            * YEAR_COUNT))

/-- One category of `calculate_variable_opex_cost`:
`calculate_variable_opex_cost_item(...)?.unwrap_or(0.0)`. -/
def variable_opex_category (cost_library : CostLibrary)
    (cost_reference_item : CostReferenceItem) (parameters : Parameters)
    (item : String) (cost_per_unit : ℚ)
    (options : CostEstimateOptionsInternal) : Except CostEstimateError ℚ :=
  match calculate_variable_opex_cost_item cost_library cost_reference_item
      parameters item cost_per_unit options with
  | .error e => .error e
  | .ok o => .ok (o.getD 0)

/-- `cost_calculator.rs` `calculate_variable_opex_cost`: the 9 fixed
categories, each `unwrap_or(0.0)`; the first failing lookup short-circuits
(the `?` operator), in field order. -/
def calculate_variable_opex_cost (cost_library : CostLibrary)
    (cost_reference_item : CostReferenceItem) (parameters : Parameters)
    (options : CostEstimateOptionsInternal) :
    Except CostEstimateError VariableOpexCostEstimate :=
  let category := fun item cost_per_unit =>
    variable_opex_category cost_library cost_reference_item parameters item
      cost_per_unit options
  match category "Electrical power" (4/10 * OPERATIONAL_HOURS_PER_YEAR) with
  | .error e => .error e
  | .ok electrical_power =>
  match category "Cooling water (10degC temp rise)" (4/10 * OPERATIONAL_HOURS_PER_YEAR) with
  | .error e => .error e
  | .ok cooling_water =>
  match category "Natural gas" (4/10 * OPERATIONAL_HOURS_PER_YEAR) with
  | .error e => .error e
  | .ok natural_gas =>
  match category "Steam HP superheat, 600degC and 50bara" (4/10 * OPERATIONAL_HOURS_PER_YEAR) with
  | .error e => .error e
  | .ok steam_hp_superheated =>
  match category "Steam LP saturated, 160degC and 6.2bara" (4/10 * OPERATIONAL_HOURS_PER_YEAR) with
  | .error e => .error e
  | .ok steam_lp_saturated =>
  match category "Catalysts and chemicals" (4/10 * OPERATIONAL_HOURS_PER_YEAR) with
  | .error e => .error e
  | .ok catalysts_and_chemicals =>
  match category "Equipment item rental" (4/10 * OPERATIONAL_HOURS_PER_YEAR) with
  | .error e => .error e
  | .ok equipment_item_rental =>
  match category "Cost per tonne of CO2" (4/10 * OPERATIONAL_HOURS_PER_YEAR) with
  | .error e => .error e
  | .ok cost_per_tonne_of_co2 =>
  match category "Tariff paid to storage reservoir owner" (20 * OPERATIONAL_HOURS_PER_YEAR) with
  | .error e => .error e
  | .ok tariff =>
    .ok ⟨electrical_power, cooling_water, natural_gas, steam_hp_superheated,
      steam_lp_saturated, catalysts_and_chemicals, equipment_item_rental,
      cost_per_tonne_of_co2, tariff⟩

-- ## linked_cost_item.rs

/-- `linked_cost_item.rs` `LinkedCostItem` (references modelled by value). -/
structure LinkedCostItem where
  id : String
  parameters : Parameters
  quantity : ℕ
  cost_reference_item : CostReferenceItem
  cost_library : CostLibrary

/-- The required parameter names of a reference item: all scaling-factor
names chained with all variable-opex-contribution names, collected into a
`HashSet` (modelled as a deduplicated list keeping first occurrences). -/
def requiredParameterNames (cost_reference_item : CostReferenceItem) :
    List String :=
  (cost_reference_item.scaling_factors.map (fun factor => factor.name)
    ++ cost_reference_item.variable_opex_contributions.map
        (fun oc => oc.name)).dedup

/-- `linked_cost_item.rs` `LinkedCostItem::link`.  The `HashSet` subset test
and difference are modelled over the deduplicated required-name list; the
(unspecified) set-iteration order of the missing names is fixed to
first-occurrence order. -/
def LinkedCostItem.link (id : String) (parameters : Parameters)
    (quantity : ℕ) (cost_reference_item : CostReferenceItem)
    (cost_library : CostLibrary) : Except CostEstimateError LinkedCostItem :=
  let required_parameters := requiredParameterNames cost_reference_item
  let provided_parameters := Parameters.keys parameters
  if required_parameters.all (fun n => provided_parameters.contains n) then
    .ok ⟨id, parameters, quantity, cost_reference_item, cost_library⟩
  else
    .error (.MissingProperties
      ((required_parameters.filter
          (fun n => !provided_parameters.contains n)).map
        (fun property => ⟨id, property⟩)))

/-- `linked_cost_item.rs` `LinkedCostItem::find_and_link`.  The id-keyed
`HashMap` of reference items is an association list (`mapGet`: last
insertion wins, as in Rust). -/
def LinkedCostItem.find_and_link (cost_item : CostItemParameters)
    (cost_reference_items : List (String × CostReferenceItem))
    (cost_library : CostLibrary) : Except CostEstimateError LinkedCostItem :=
  match mapGet cost_reference_items cost_item.cost_item_ref with
  | none => .error (.UnknownCostItem cost_item.id)
  | some cost_reference_item =>
    LinkedCostItem.link cost_item.id cost_item.parameters cost_item.quantity
      cost_reference_item cost_library

/-- `linked_cost_item.rs` `LinkedCostItem::get_costs`. -/
def LinkedCostItem.get_costs (item : LinkedCostItem)
    (options : CostEstimateOptionsInternal) : Outcome CostItemCosts :=
  Outcome.bind (calculate_direct_equipment_cost item.cost_library
      item.cost_reference_item item.parameters options) (fun dec =>
    Outcome.bind (calculate_total_installed_cost item.cost_library
        item.cost_reference_item item.parameters options) (fun tic =>
      Outcome.bind (Outcome.ofExcept (calculate_variable_opex_cost
          item.cost_library item.cost_reference_item item.parameters
          options)) (fun voc =>
        .ok ⟨dec.map (fun v => v * (item.quantity : ℚ)),
             tic.map (fun v => v * (item.quantity : ℚ)),
             voc.scale (item.quantity : ℚ)⟩)))

-- ## response.rs: spreading

/-- `response.rs` `CostItemCosts::spread`: per-year cost item costs over the
whole timeline, capital divided across the construction range, variable opex
repeated across the operation range. -/
def CostItemCosts.spread (costs : CostItemCosts) (timeline : Timeline) :
    List (ℤ × CostItemPeriodCosts) :=
  let construction_len := timeline.construction_len
  let direct_equipment_cost_per_year :=
    costs.direct_equipment_cost.map (fun v => v / (construction_len : ℚ))
  let total_installed_cost_per_year :=
    costs.total_installed_cost.map (fun v => v / (construction_len : ℚ))
  (yearRange timeline.start timeline.end_).map (fun year =>
    (year,
      ({ direct_equipment_cost :=
           if timeline.construction_contains year then
             direct_equipment_cost_per_year
           else none
         total_installed_cost :=
           if timeline.construction_contains year then
             total_installed_cost_per_year
           else none
         variable_opex_cost :=
           if timeline.operation_contains year then
             costs.variable_opex_cost_per_year
           else VariableOpexCostEstimate.default } : CostItemPeriodCosts)))

-- ## mod.rs: the asset and top-level estimators

/-- Rust `f64::powi` over `ℚ`: `x^n`, with a negative exponent taken as the
reciprocal of the positive power. -/
def powi (x : ℚ) (n : ℤ) : ℚ :=
  if 0 ≤ n then x ^ n.toNat else 1 / x ^ (-n).toNat

/-- The discounted-cash-flow factor the estimator divides by, i.e. per-year
costs are multiplied by `1 / (1 + discount_rate)^(year - construction_start)`
(`mod.rs` lines 119-120 and 248-256). -/
def dcf_factor (discount_rate : ℚ) (year start_year : ℤ) : ℚ :=
  1 / powi (1 + discount_rate) (year - start_year)

/-- `response.rs` `YearCostItemCosts`. -/
structure YearCostItemCosts where
  year : ℤ
  costs_in_year : CostItemPeriodCosts
  dcf_costs_in_year : CostItemPeriodCosts
deriving DecidableEq

/-- `response.rs` `CostItemCostEstimate`. -/
structure CostItemCostEstimate where
  id : String
  quantity : ℕ
  costs : CostItemCosts
  costs_by_year : List YearCostItemCosts
  lifetime_costs : CostItemPeriodCosts
  lifetime_dcf_costs : CostItemPeriodCosts
deriving DecidableEq

/-- `response.rs` `YearAssetCosts`. -/
structure YearAssetCosts where
  year : ℤ
  costs_in_year : AssetPeriodCosts
  dcf_costs_in_year : AssetPeriodCosts
deriving DecidableEq

/-- `response.rs` `AssetCostEstimate`. -/
structure AssetCostEstimate where
  id : String
  costs : AssetCosts
  costs_by_year : List YearAssetCosts
  lifetime_costs : AssetPeriodCosts
  lifetime_dcf_costs : AssetPeriodCosts
  cost_items : List CostItemCostEstimate
deriving DecidableEq

/-- `response.rs` `CostEstimate`. -/
structure CostEstimate where
  assets : List AssetCostEstimate
deriving DecidableEq

/-- `mod.rs` `partition_results`: `Vec::partition` keeps the iterator order
on both sides, so the oks and the errors are the two order-preserving
projections. -/
def partition_results {α : Type} (l : List (Except CostEstimateError α)) :
    List α × List CostEstimateError :=
  (l.filterMap (fun r => match r with | .ok v => some v | .error _ => none),
   l.filterMap (fun r => match r with | .ok _ => none | .error e => some e))

/-- Sequencing `collect::<Result<Vec<_>, _>>()` over per-item outcomes: the
first non-`ok` outcome (in iterator order) aborts. -/
def collectOutcomes {α : Type} : List (Outcome α) → Outcome (List α)
  | [] => .ok []
  | o :: rest =>
    Outcome.bind o (fun v =>
      Outcome.bind (collectOutcomes rest) (fun vs => .ok (v :: vs)))

def Outcome.isPanic {α : Type} : Outcome α → Bool
  | .panic => true
  | _ => false

/-- `mod.rs` `estimate_asset_cost` lines 84-90: the id-keyed map of all cost
reference items of every module. -/
def costReferenceItemsOf (cost_library : CostLibrary) :
    List (String × CostReferenceItem) :=
  (cost_library.modules.flatMap (fun m => m.cost_items)).map
    (fun cost_ref => (cost_ref.id, cost_ref))

/-- `mod.rs` `estimate_asset_cost` lines 92-95: link every requested cost
item and partition the outcomes into linked items and linking errors. -/
def linkAssetCostItems (cost_library : CostLibrary) (asset : AssetParameters) :
    List LinkedCostItem × List CostEstimateError :=
  partition_results (asset.cost_items.map (fun cost_item =>
    LinkedCostItem.find_and_link cost_item (costReferenceItemsOf cost_library)
      cost_library))

/-- `mod.rs` `estimate_asset_cost`. -/
def estimate_asset_cost (cost_library : CostLibrary) (asset : AssetParameters)
    (options : CostEstimateOptionsInternal) : Outcome AssetCostEstimate :=
  let linked := linkAssetCostItems cost_library asset
  match linked.2 with
  | e :: rest => .err (combineErrors e rest)
  | [] =>
    let start_year := asset.timeline.start
    Outcome.bind
      (collectOutcomes (linked.1.map (fun item =>
        Outcome.bind (item.get_costs options) (fun costs =>
          let costs_by_year : List YearCostItemCosts :=
            (costs.spread asset.timeline).map (fun yc =>
              { year := yc.1
                costs_in_year := yc.2
                dcf_costs_in_year :=
                  yc.2.divBy (powi (1 + asset.discount_rate)
                    (yc.1 - start_year)) })
          let lifetime_costs := costs_by_year.foldl
            (fun acc cost => acc.add cost.costs_in_year)
            CostItemPeriodCosts.default
          let lifetime_dcf_costs := costs_by_year.foldl
            (fun acc cost => acc.add cost.dcf_costs_in_year)
            CostItemPeriodCosts.default
          .ok ({ id := item.id
                 quantity := item.quantity
                 costs := costs
                 costs_by_year := costs_by_year
                 lifetime_costs := lifetime_costs
                 lifetime_dcf_costs := lifetime_dcf_costs } :
              CostItemCostEstimate)))))
      (fun cost_items =>
        let direct_equipment_cost : ℚ :=
          (cost_items.filterMap
            (fun item => item.costs.direct_equipment_cost)).sum
        let lang_factored_capital_cost : LangFactoredCostEstimate :=
          { equipment_erection :=
              direct_equipment_cost * asset.capex_lang_factors.equipment_erection
            piping := direct_equipment_cost * asset.capex_lang_factors.piping
            instrumentation :=
              direct_equipment_cost * asset.capex_lang_factors.instrumentation
            electrical :=
              direct_equipment_cost * asset.capex_lang_factors.electrical
            buildings_and_process :=
              direct_equipment_cost * asset.capex_lang_factors.buildings_and_process
            utilities :=
              direct_equipment_cost * asset.capex_lang_factors.utilities
            storages :=
              direct_equipment_cost * asset.capex_lang_factors.storages
            site_development :=
              direct_equipment_cost * asset.capex_lang_factors.site_development
            ancillary_buildings :=
              direct_equipment_cost * asset.capex_lang_factors.ancillary_buildings
            design_and_engineering :=
              direct_equipment_cost * asset.capex_lang_factors.design_and_engineering
            contractors_fee :=
              direct_equipment_cost * asset.capex_lang_factors.contractors_fee
            contingency :=
              direct_equipment_cost * asset.capex_lang_factors.contingency }
        let sum_total_installed_cost : ℚ :=
          (cost_items.filterMap
            (fun item => item.costs.total_installed_cost)).sum
        let total_installed_cost :=
          direct_equipment_cost + lang_factored_capital_cost.total
            - lang_factored_capital_cost.contingency + sum_total_installed_cost
        let fixed_opex_cost_per_year : FixedOpexCostEstimate :=
          { maintenance := total_installed_cost * asset.opex_factors.maintenance
            control_room_facilities :=
              total_installed_cost * asset.opex_factors.control_room_facilities
            insurance_liability :=
              total_installed_cost * asset.opex_factors.insurance_liability
            insurance_equipment_loss :=
              total_installed_cost * asset.opex_factors.insurance_equipment_loss
            cost_of_capital :=
              total_installed_cost * asset.opex_factors.cost_of_capital
            major_turnarounds :=
              total_installed_cost * asset.opex_factors.major_turnarounds }
        let variable_opex_cost_per_year : VariableOpexCostEstimate :=
          cost_items.foldl
            (fun acc item => acc.add item.costs.variable_opex_cost_per_year)
            VariableOpexCostEstimate.default
        let decommissioning_cost :=
          (direct_equipment_cost + lang_factored_capital_cost.total
            - lang_factored_capital_cost.contingency) * (1/10)
        let direct_equipment_cost_per_year :=
          direct_equipment_cost / (asset.timeline.construction_len : ℚ)
        let total_installed_cost_per_year :=
          total_installed_cost / (asset.timeline.construction_len : ℚ)
        let lang_factored_capital_cost_per_year :=
          lang_factored_capital_cost.divBy (asset.timeline.construction_len : ℚ)
        let decommissioning_cost_per_year :=
          decommissioning_cost / (asset.timeline.decommissioning_len : ℚ)
        let costs_by_year : List YearAssetCosts :=
          asset.timeline.range.map (fun year =>
            let costs_in_year : AssetPeriodCosts :=
              { direct_equipment_cost :=
                  if asset.timeline.construction_contains year then
                    direct_equipment_cost_per_year
                  else 0
                lang_factored_capital_cost :=
                  if asset.timeline.construction_contains year then
                    lang_factored_capital_cost_per_year
                  else LangFactoredCostEstimate.default
                total_installed_cost :=
                  if asset.timeline.construction_contains year then
                    total_installed_cost_per_year
                  else 0
                fixed_opex_cost :=
                  if asset.timeline.operation_contains year then
                    fixed_opex_cost_per_year
                  else FixedOpexCostEstimate.default
                variable_opex_cost :=
                  if asset.timeline.operation_contains year then
                    variable_opex_cost_per_year
                  else VariableOpexCostEstimate.default
                decommissioning_cost :=
                  if asset.timeline.decommissioning_contains year then
                    decommissioning_cost_per_year
                  else 0 }
            { year := year
              costs_in_year := costs_in_year
              dcf_costs_in_year :=
                costs_in_year.divBy (powi (1 + asset.discount_rate)
                  (year - asset.timeline.start)) })
        let lifetime_costs := costs_by_year.foldl
          (fun acc year_costs => acc.add year_costs.costs_in_year)
          AssetPeriodCosts.default
        let lifetime_dcf_costs := costs_by_year.foldl
          (fun acc year_costs => acc.add year_costs.dcf_costs_in_year)
          AssetPeriodCosts.default
        .ok { id := asset.id
              costs :=
                { direct_equipment_cost := direct_equipment_cost
                  lang_factored_capital_cost := lang_factored_capital_cost
                  total_installed_cost := total_installed_cost
                  fixed_opex_cost_per_year := fixed_opex_cost_per_year
                  variable_opex_cost_per_year := variable_opex_cost_per_year
                  decommissioning_cost := decommissioning_cost }
              costs_by_year := costs_by_year
              lifetime_costs := lifetime_costs
              lifetime_dcf_costs := lifetime_dcf_costs
              cost_items := cost_items })

/-- `mod.rs` `CostEstimateOptions::convert_to_internal`. -/
def convert_to_internal (target_currency : Option String)
    (cost_library : CostLibrary) :
    Except CostEstimateError CostEstimateOptionsInternal :=
  let target_currency_code :=
    target_currency.getD cost_library.currency_conversion.base_currency
  match mapGet cost_library.currency_conversion.rates target_currency_code with
  | some rate => .ok ⟨1 / rate⟩
  | none => .error (.UnknownCurrencyConversion target_currency_code)

/-- `response.rs` `CostEstimateResponse` (the 404 library-not-found arm is
produced by the routing layer, not by `estimate_cost`, and is omitted; the
`Panic` arm records an aborted computation). -/
inductive CostEstimateResponse where
  | Ok (estimate : CostEstimate)
  | DataError (e : CostEstimateError)
  | Panic
deriving DecidableEq

/-- Order-preserving partition of per-asset outcomes into estimates and
errors (`partition_results` in `mod.rs`, lifted to outcomes). -/
def partitionAssetResults (l : List (Outcome AssetCostEstimate)) :
    List AssetCostEstimate × List CostEstimateError :=
  (l.filterMap (fun r => match r with | .ok v => some v | _ => none),
   l.filterMap (fun r => match r with | .err e => some e | _ => none))

/-- `mod.rs` `estimate_cost` lines 299-301: the per-asset estimation
outcomes, in request order. -/
def assetResultsOf (cost_library : CostLibrary)
    (assets : List AssetParameters)
    (internal_options : CostEstimateOptionsInternal) :
    List (Outcome AssetCostEstimate) :=
  assets.map (fun asset =>
    estimate_asset_cost cost_library asset internal_options)

/-- `mod.rs` `estimate_cost`.  A panic in any asset aborts the whole call
(the iterator is fully consumed by `partition`), modelled by the `Panic`
response. -/
def estimate_cost (cost_library : CostLibrary)
    (assets : List AssetParameters) (target_currency : Option String) :
    CostEstimateResponse :=
  match convert_to_internal target_currency cost_library with
  | .error e => .DataError e
  | .ok internal_options =>
    let asset_cost_estimates := assetResultsOf cost_library assets
      internal_options
    if asset_cost_estimates.any (fun r => r.isPanic) then .Panic
    else
      let partitioned := partitionAssetResults asset_cost_estimates
      match partitioned.2 with
      | [] => .Ok ⟨partitioned.1⟩
      | e :: rest => .DataError (combineErrors e rest)

-- ## The end-to-end scenario of §8 of the spec

/-- The reference item of the end-to-end scenario: `Item 001`, Linear
base_cost 100, scaling factors `length`/`depth` with source value 50,
currency GBP, year 2024. -/
def scenarioItem : CostReferenceItem :=
  { id := "Item 001"
    info := ⟨none⟩
    scaling_factors := [⟨"length", "m", 50⟩, ⟨"depth", "m", 50⟩]
    capex_contribution := ⟨2024, "GBP", .Linear 100⟩
    variable_opex_contributions := [] }

/-- The library of the end-to-end scenario: one module `M0101`, currency
table `{GBP: 1.0, EUR: 3.0}` with base GBP, inflation `{2024: 1.0}`. -/
def scenarioLibrary : CostLibrary :=
  { modules := [⟨"M0101", [scenarioItem]⟩]
    currency_conversion := ⟨"GBP", [("GBP", 1), ("EUR", 3)]⟩
    inflation := ⟨"2024", [("2024", 1)]⟩ }

/-- The supplied parameters of the scenario cost item:
`length = 100, depth = 30`. -/
def scenarioParams : Parameters := [("length", 100), ("depth", 30)]

/-- The scenario timeline: construction 2025-2025, operation 2026-2026,
decommissioning 2027-2027. -/
def scenarioTimeline : Timeline := ⟨2025, 2025, 2026, 2026, 2027, 2027⟩

/-- The scenario cost item: quantity 1, referencing `Item 001`. -/
def scenarioCostItem : CostItemParameters :=
  ⟨"c1", "Item 001", 1, scenarioParams⟩

/-- The asset of the end-to-end scenario: timeline 2025-2025 / 2026-2026 /
2027-2027, one cost item of quantity 1 supplying `length=100, depth=30`,
default Lang and fixed-opex factors, discount rate 0.1. -/
def scenarioAsset : AssetParameters :=
  { id := "a1"
    timeline := scenarioTimeline
    labour_average_salary := ⟨"EUR", 55000⟩
    fte_personnel := 5
    asset_uptime := 95/100
    capex_lang_factors := CapexLangFactors.default
    opex_factors := FixedOpexFactors.default
    cost_items := [scenarioCostItem]
    discount_rate := 1/10 }

/-- Per-asset summary of a response: for a successful estimate, each asset's
(direct_equipment_cost, total_installed_cost, decommissioning_cost). -/
def responseCostsSummary : CostEstimateResponse → Option (List (ℚ × ℚ × ℚ))
  | .Ok est => some (est.assets.map (fun a =>
      (a.costs.direct_equipment_cost, a.costs.total_installed_cost,
       a.costs.decommissioning_cost)))
  | _ => none

-- ## Concrete items and assets used by claim witnesses

/-- The names a cost item declares: scaling-factor names followed by
variable-opex-contribution names (the linker's required set, before
deduplication). -/
def declaredNames (cri : CostReferenceItem) : List String :=
  cri.scaling_factors.map CostScalingFactor.name
    ++ cri.variable_opex_contributions.map VariableOpexContribution.name

/-- A Polynomial reference item whose only term reads dimension `x`, which
appears neither among its scaling factors nor among its variable-opex
contributions — so the linker requires nothing, yet the polynomial
evaluation needs `x`. -/
def polyPanicItem : CostReferenceItem :=
  { id := "Poly 001"
    info := ⟨none⟩
    scaling_factors := []
    capex_contribution := ⟨2024, "GBP", .Polynomial [.Variable "x" 1 1]⟩
    variable_opex_contributions := [] }

/-- The linear scale-factor product of a reference item under supplied
parameters (each factor contributing supplied value over source value). -/
def linearScaleProduct (cri : CostReferenceItem) (parameters : Parameters) : ℚ :=
  (cri.scaling_factors.map (fun factor =>
    (Parameters.get parameters factor.name).getD 0 / factor.source_value)).prod

/-- The polynomial term sum of the spec in §4.1: a constant term contributes
its value, and a variable term contributes
coefficient × supplied[dimension] × exponent. -/
def polynomialTermSum (parts : List PolynomialPart) (parameters : Parameters) : ℚ :=
  (parts.map (fun part =>
    match part with
    | .Variable dimension_name coefficient exponent =>
      coefficient * (Parameters.get parameters dimension_name).getD 0 * exponent
    | .Constant value => value)).sum

/-- A one-scaling-factor Linear item used to witness the doubling law. -/
def singleFactorItem : CostReferenceItem :=
  { id := "Lin 001"
    info := ⟨none⟩
    scaling_factors := [⟨"length", "m", 50⟩]
    capex_contribution := ⟨2024, "GBP", .Linear 100⟩
    variable_opex_contributions := [] }

/-- The scenario cost item linked against the scenario library. -/
def scenarioLinked : LinkedCostItem :=
  ⟨"c1", scenarioParams, 1, scenarioItem, scenarioLibrary⟩

/-- The costs of the scenario cost item: direct equipment cost 120, no total
installed cost, zero variable opex. -/
def scenarioItemCosts : CostItemCosts :=
  ⟨some 120, none, VariableOpexCostEstimate.default⟩

/-- A request cost item referencing an id absent from the scenario library. -/
def badCostItem : CostItemParameters := ⟨"cx", "Nope", 1, []⟩

/-- An asset whose only cost item fails to link. -/
def badAsset : AssetParameters :=
  { id := "a2"
    timeline := scenarioTimeline
    labour_average_salary := ⟨"EUR", 55000⟩
    fte_personnel := 5
    asset_uptime := 95/100
    capex_lang_factors := CapexLangFactors.default
    opex_factors := FixedOpexFactors.default
    cost_items := [badCostItem]
    discount_rate := 1/10 }

-- ## Claim theorems

set_option maxHeartbeats 4000000 in
/-- C1: For the spec's end-to-end scenario (library with module `M0101`,
item `Item 001`, Linear base_cost 100, scaling factors `length`/`depth`
with source_value 50, currency GBP year 2024; currency table
{GBP: 1.0, EUR: 3.0} base GBP; inflation {2024: 1.0}; one asset with
timeline 2025-2025 / 2026-2026 / 2027-2027, one cost item of quantity 1
supplying length=100 and depth=30, default Lang and fixed-opex factors,
discount rate 0.1, no target currency), the estimator returns
direct_equipment_cost = 120.0, total_installed_cost = 450.0 and
decommissioning_cost = 45.0 for that asset. -/
theorem C1_end_to_end_scenario :
    responseCostsSummary (estimate_cost scenarioLibrary [scenarioAsset] none)
      = some [(120, 450, 45)] := by
  have hyear : toString (2024 : ℤ) = "2024" := rfl
  have hdef : (default : CostReferenceItemCostType) = .DirectEquipmentCost := rfl
  have hrange : yearRange 2025 2027 = [2025, 2026, 2027] := rfl
  simp [estimate_cost, convert_to_internal, mapGet, estimate_asset_cost,
    costReferenceItemsOf, linkAssetCostItems, assetResultsOf,
    partition_results, LinkedCostItem.find_and_link, LinkedCostItem.link,
    requiredParameterNames, Parameters.keys, Parameters.get, combineErrors,
    collectOutcomes, Outcome.bind, Outcome.ofExcept, Outcome.isPanic,
    LinkedCostItem.get_costs, calculate_direct_equipment_cost,
    calculate_total_installed_cost, calculate_capex_cost, capexCostOpt,
    costTypeOrDefault,
    listReduce, product_or_none, sum_or_none, get_currency_factor,
    get_inflation_factor, calculate_variable_opex_cost, variable_opex_category,
    calculate_variable_opex_cost_item, OPERATIONAL_HOURS_PER_YEAR, YEAR_COUNT,
    scenarioItem, scenarioLibrary, scenarioAsset, scenarioCostItem,
    scenarioParams, scenarioTimeline, responseCostsSummary,
    partitionAssetResults, hyear, hdef, hrange, Function.comp,
    CostItemCosts.spread, powi,
    Timeline.construction_contains, Timeline.operation_contains,
    Timeline.decommissioning_contains, Timeline.construction_len,
    Timeline.decommissioning_len, Timeline.start, Timeline.end_,
    Timeline.range, rangeContains, rangeLen,
    CostItemPeriodCosts.divBy, CostItemPeriodCosts.add,
    CostItemPeriodCosts.default, add_options,
    VariableOpexCostEstimate.default, VariableOpexCostEstimate.scale,
    VariableOpexCostEstimate.add, VariableOpexCostEstimate.divBy,
    LangFactoredCostEstimate.default, LangFactoredCostEstimate.add,
    LangFactoredCostEstimate.divBy, LangFactoredCostEstimate.total,
    FixedOpexCostEstimate.default, FixedOpexCostEstimate.add,
    FixedOpexCostEstimate.divBy,
    AssetPeriodCosts.default, AssetPeriodCosts.add, AssetPeriodCosts.divBy,
    CapexLangFactors.default, FixedOpexFactors.default]
  norm_num

/-- C3: combining two MissingProperties errors yields one MissingProperties
error whose property list is the concatenation of the two lists (the union
with no duplicates dropped or added); combining a MissingProperties error
with an error of any other kind (UnknownCostItem, UnknownCurrencyConversion,
UnknownInflationFactor), in either argument order, yields that other error
unchanged. -/
theorem C3_combine_missing_properties :
    (∀ a b, (CostEstimateError.MissingProperties a).combine
        (.MissingProperties b) = .MissingProperties (a ++ b)) ∧
    (∀ a i, (CostEstimateError.MissingProperties a).combine (.UnknownCostItem i)
          = .UnknownCostItem i
        ∧ (CostEstimateError.UnknownCostItem i).combine (.MissingProperties a)
          = .UnknownCostItem i) ∧
    (∀ a c, (CostEstimateError.MissingProperties a).combine
          (.UnknownCurrencyConversion c) = .UnknownCurrencyConversion c
        ∧ (CostEstimateError.UnknownCurrencyConversion c).combine
          (.MissingProperties a) = .UnknownCurrencyConversion c) ∧
    (∀ a y, (CostEstimateError.MissingProperties a).combine
          (.UnknownInflationFactor y) = .UnknownInflationFactor y
        ∧ (CostEstimateError.UnknownInflationFactor y).combine
          (.MissingProperties a) = .UnknownInflationFactor y) :=
  ⟨fun _ _ => rfl, fun _ _ => ⟨rfl, rfl⟩, fun _ _ => ⟨rfl, rfl⟩,
   fun _ _ => ⟨rfl, rfl⟩⟩

-- ## Shared lemmas about linking

lemma requiredParameterNames_eq_dedup (cri : CostReferenceItem) :
    requiredParameterNames cri = (declaredNames cri).dedup := rfl

/-- Linking succeeds exactly when every declared name is supplied. -/
lemma link_isOk_iff (id : String) (parameters : Parameters) (quantity : ℕ)
    (cri : CostReferenceItem) (lib : CostLibrary) :
    (LinkedCostItem.link id parameters quantity cri lib).isOk = true ↔
      ∀ n ∈ declaredNames cri, n ∈ Parameters.keys parameters := by
  unfold LinkedCostItem.link
  rw [requiredParameterNames_eq_dedup]
  by_cases h : ((declaredNames cri).dedup.all
      (fun n => (Parameters.keys parameters).contains n)) = true
  · rw [if_pos h]
    simp only [List.all_eq_true, List.mem_dedup] at h
    constructor
    · intro _ n hn
      simpa using h n hn
    · intro _
      rfl
  · rw [if_neg h]
    constructor
    · intro habs
      simp [Except.isOk, Except.toBool] at habs
    · intro hall
      apply absurd _ h
      simp only [List.all_eq_true, List.mem_dedup]
      intro n hn
      simpa using hall n hn

/-- On failure the missing-property list has one entry, carrying the item's
id, for exactly each declared-but-not-supplied name. -/
lemma link_error_characterisation (id : String) (parameters : Parameters)
    (quantity : ℕ) (cri : CostReferenceItem) (lib : CostLibrary)
    (props : List MissingProperty)
    (hprops : LinkedCostItem.link id parameters quantity cri lib
      = .error (.MissingProperties props)) :
    (props.map MissingProperty.property).Nodup ∧
    (∀ p ∈ props, p.id = id) ∧
    (∀ n : String, (⟨id, n⟩ : MissingProperty) ∈ props ↔
      n ∈ declaredNames cri ∧ n ∉ Parameters.keys parameters) := by
  unfold LinkedCostItem.link at hprops
  rw [requiredParameterNames_eq_dedup] at hprops
  by_cases h : ((declaredNames cri).dedup.all
      (fun n => (Parameters.keys parameters).contains n)) = true
  · rw [if_pos h] at hprops
    exact absurd hprops (by simp)
  · rw [if_neg h] at hprops
    injection hprops with h1
    injection h1 with h2
    refine ⟨?_, ?_, ?_⟩
    · subst h2
      rw [List.map_map]
      have hcomp : MissingProperty.property
          ∘ (fun property => (⟨id, property⟩ : MissingProperty))
          = fun property => property := rfl
      rw [hcomp, List.map_id']
      exact ((declaredNames cri).nodup_dedup).filter _
    · subst h2
      intro p hp
      rcases List.mem_map.mp hp with ⟨n, _, rfl⟩
      rfl
    · subst h2
      intro n
      constructor
      · intro hmem
        rcases List.mem_map.mp hmem with ⟨m, hm, hEq⟩
        have hmn : m = n := by
          simpa using congrArg MissingProperty.property hEq
        subst hmn
        rcases List.mem_filter.mp hm with ⟨hmem2, hcond⟩
        refine ⟨List.mem_dedup.mp hmem2, ?_⟩
        simpa using hcond
      · rintro ⟨hdecl, hnot⟩
        apply List.mem_map.mpr
        refine ⟨n, List.mem_filter.mpr ⟨List.mem_dedup.mpr hdecl, ?_⟩, rfl⟩
        simpa using hnot

/-- C5: linking succeeds if and only if every required parameter name (every
scaling-factor name and every variable-opex-contribution name) is supplied;
on failure the MissingProperties error lists exactly one {item_id, name}
pair per name in the set difference required minus supplied. -/
theorem C5_link_iff_required_subset (id : String) (parameters : Parameters)
    (quantity : ℕ) (cri : CostReferenceItem) (lib : CostLibrary) :
    ((LinkedCostItem.link id parameters quantity cri lib).isOk = true ↔
      ∀ n ∈ declaredNames cri, n ∈ Parameters.keys parameters) ∧
    (∀ props, LinkedCostItem.link id parameters quantity cri lib
        = .error (.MissingProperties props) →
      (props.map MissingProperty.property).Nodup ∧
      (∀ p ∈ props, p.id = id) ∧
      (∀ n : String, (⟨id, n⟩ : MissingProperty) ∈ props ↔
        n ∈ declaredNames cri ∧ n ∉ Parameters.keys parameters)) :=
  ⟨link_isOk_iff id parameters quantity cri lib,
   fun props => link_error_characterisation id parameters quantity cri lib props⟩

/-- Witness for C5: for the scenario item, supplying the full required set
`{length, depth}` links successfully, and dropping `depth` fails with a
MissingProperties error naming exactly `depth`. -/
theorem C5_witness :
    (LinkedCostItem.link "c1" scenarioParams 1 scenarioItem scenarioLibrary).isOk
      = true ∧
    ((⟨"c1", "depth"⟩ : MissingProperty) ∈ ([⟨"c1", "depth"⟩] : List MissingProperty) ↔
      "depth" ∈ declaredNames scenarioItem
        ∧ "depth" ∉ Parameters.keys [("length", 100)]) := by
  constructor
  · exact (C5_link_iff_required_subset "c1" scenarioParams 1 scenarioItem
      scenarioLibrary).1.mpr (by decide)
  · exact ((C5_link_iff_required_subset "c1" [("length", 100)] 1 scenarioItem
      scenarioLibrary).2 [⟨"c1", "depth"⟩] rfl).2.2 "depth"

-- ## Panic analysis of calculate_capex_cost

lemma foldl_product_isSome (l : List (Option ℚ)) (acc : Option ℚ)
    (hl : ∀ o ∈ l, o.isSome = true) (hacc : acc.isSome = true) :
    (l.foldl product_or_none acc).isSome = true := by
  induction l generalizing acc with
  | nil => exact hacc
  | cons x xs ih =>
    rcases Option.isSome_iff_exists.mp (hl x (by simp)) with ⟨vx, rfl⟩
    rcases Option.isSome_iff_exists.mp hacc with ⟨va, rfl⟩
    rw [List.foldl_cons]
    exact ih _ (fun o ho => hl o (by simp [ho])) rfl

lemma foldl_sum_isSome (l : List (Option ℚ)) (acc : Option ℚ)
    (hl : ∀ o ∈ l, o.isSome = true) (hacc : acc.isSome = true) :
    (l.foldl sum_or_none acc).isSome = true := by
  induction l generalizing acc with
  | nil => exact hacc
  | cons x xs ih =>
    rcases Option.isSome_iff_exists.mp (hl x (by simp)) with ⟨vx, rfl⟩
    rcases Option.isSome_iff_exists.mp hacc with ⟨va, rfl⟩
    rw [List.foldl_cons]
    exact ih _ (fun o ho => hl o (by simp [ho])) rfl

lemma listReduce_product_isSome (l : List (Option ℚ))
    (hl : ∀ o ∈ l, o.isSome = true) :
    (((listReduce product_or_none l).getD (some 1))).isSome = true := by
  cases l with
  | nil => rfl
  | cons x xs =>
    simp only [listReduce, Option.getD_some]
    exact foldl_product_isSome xs x (fun o ho => hl o (by simp [ho]))
      (hl x (by simp))

lemma listReduce_sum_isSome (l : List (Option ℚ))
    (hl : ∀ o ∈ l, o.isSome = true) :
    (((listReduce sum_or_none l).getD (some 0))).isSome = true := by
  cases l with
  | nil => rfl
  | cons x xs =>
    simp only [listReduce, Option.getD_some]
    exact foldl_sum_isSome xs x (fun o ho => hl o (by simp [ho]))
      (hl x (by simp))

/-- `calculate_capex_cost` reaches the `expect` panic exactly when the cost
option evaluates to `none`. -/
lemma capex_panic_iff (lib : CostLibrary) (cri : CostReferenceItem)
    (parameters : Parameters) (options : CostEstimateOptionsInternal) :
    calculate_capex_cost lib cri parameters options = .panic ↔
      capexCostOpt cri parameters = none := by
  unfold calculate_capex_cost
  cases h : capexCostOpt cri parameters with
  | none => simp
  | some cost =>
    simp only
    cases get_currency_factor lib cri.capex_contribution.currency options with
    | error e => simp
    | ok cf =>
      cases get_inflation_factor lib (toString cri.capex_contribution.year) with
      | error e => simp
      | ok infl => simp

/-- A parameter name is supplied exactly when lookup succeeds. -/
lemma mem_keys_iff_get_isSome (p : Parameters) (n : String) :
    n ∈ Parameters.keys p ↔ (Parameters.get p n).isSome = true := by
  unfold Parameters.keys Parameters.get mapGet
  constructor
  · intro hmem
    rcases List.mem_map.mp hmem with ⟨kv, hkv, rfl⟩
    have hfind : (List.find? (fun kv2 => kv2.1 == kv.1) p.reverse).isSome = true :=
      List.find?_isSome.mpr ⟨kv, by simpa using hkv, by simp⟩
    simpa using hfind
  · intro hsome
    have h2 : (List.find? (fun kv => kv.1 == n) p.reverse).isSome = true := by
      simpa using hsome
    rcases List.find?_isSome.mp h2 with ⟨kv, hkv, hbeq⟩
    exact List.mem_map.mpr ⟨kv, by simpa using hkv, by simpa using hbeq⟩

theorem C2_counterexample :
    (LinkedCostItem.link "c1" [] 1 polyPanicItem scenarioLibrary).isOk = true ∧
    calculate_capex_cost scenarioLibrary polyPanicItem [] ⟨1⟩ = .panic :=
  ⟨rfl, rfl⟩

theorem C2_amended_no_panic
    (lib : CostLibrary) (cri : CostReferenceItem) (parameters : Parameters)
    (options : CostEstimateOptionsInternal) :
    (∀ id quantity l base_cost,
      LinkedCostItem.link id parameters quantity cri lib = .ok l →
      cri.capex_contribution.cost = .Linear base_cost →
      calculate_capex_cost lib cri parameters options ≠ .panic) ∧
    (∀ parts,
      cri.capex_contribution.cost = .Polynomial parts →
      (∀ d c e, PolynomialPart.Variable d c e ∈ parts →
        (Parameters.get parameters d).isSome = true) →
      calculate_capex_cost lib cri parameters options ≠ .panic) := by
  constructor
  · intro id quantity l base_cost hlink hcost hpanic
    have hsupplied : ∀ n ∈ declaredNames cri, n ∈ Parameters.keys parameters := by
      apply (link_isOk_iff id parameters quantity cri lib).mp
      rw [hlink]
      rfl
    have hnone := (capex_panic_iff lib cri parameters options).mp hpanic
    unfold capexCostOpt at hnone
    simp only [hcost] at hnone
    have hsome : (((listReduce product_or_none
        (cri.scaling_factors.map (fun factor =>
          (Parameters.get parameters factor.name).map
            (fun v => v / factor.source_value)))).getD (some 1))).isSome = true := by
      apply listReduce_product_isSome
      intro o ho
      rcases List.mem_map.mp ho with ⟨factor, hfactor, rfl⟩
      rw [Option.isSome_map']
      rw [← mem_keys_iff_get_isSome]
      apply hsupplied
      unfold declaredNames
      exact List.mem_append_left _ (List.mem_map.mpr ⟨factor, hfactor, rfl⟩)
    rcases Option.isSome_iff_exists.mp hsome with ⟨v, hv⟩
    simp only [hv, Option.map_some] at hnone
    exact Option.some_ne_none _ hnone
  · intro parts hcost hvars hpanic
    have hnone := (capex_panic_iff lib cri parameters options).mp hpanic
    unfold capexCostOpt at hnone
    simp only [hcost] at hnone
    have hsome : (((listReduce sum_or_none
        (parts.map (fun part =>
          match part with
          | .Variable dimension_name coefficient exponent =>
            (Parameters.get parameters dimension_name).map
              (fun value => coefficient * value * exponent)
          | .Constant value => some value))).getD (some 0))).isSome = true := by
      apply listReduce_sum_isSome
      intro o ho
      rcases List.mem_map.mp ho with ⟨part, hpart, rfl⟩
      cases part with
      | Variable d c e =>
        rw [Option.isSome_map']
        exact hvars d c e hpart
      | Constant v => rfl
    rcases Option.isSome_iff_exists.mp hsome with ⟨v, hv⟩
    rw [hv] at hnone
    exact Option.some_ne_none _ hnone

theorem C2_witness :
    calculate_capex_cost scenarioLibrary scenarioItem scenarioParams ⟨1⟩ ≠ .panic ∧
    calculate_capex_cost scenarioLibrary polyPanicItem [("x", 5)] ⟨1⟩ ≠ .panic := by
  constructor
  · exact (C2_amended_no_panic scenarioLibrary scenarioItem scenarioParams ⟨1⟩).1
      "c1" 1 ⟨"c1", scenarioParams, 1, scenarioItem, scenarioLibrary⟩ 100 rfl rfl
  · apply (C2_amended_no_panic scenarioLibrary polyPanicItem [("x", 5)] ⟨1⟩).2
      [.Variable "x" 1 1] rfl
    intro d c e h
    simp only [List.mem_singleton] at h
    injection h with h1 h2 h3
    subst h1
    rfl

-- ## Exact values of the capital-cost reductions

lemma foldl_product_values (vs : List ℚ) (a : ℚ) :
    (vs.map some).foldl product_or_none (some a) = some (a * vs.prod) := by
  induction vs generalizing a with
  | nil => simp
  | cons v vs ih =>
    rw [List.map_cons, List.foldl_cons]
    show (vs.map some).foldl product_or_none (some (a * v)) = _
    rw [ih, List.prod_cons, mul_assoc]

lemma foldl_sum_values (vs : List ℚ) (a : ℚ) :
    (vs.map some).foldl sum_or_none (some a) = some (a + vs.sum) := by
  induction vs generalizing a with
  | nil => simp
  | cons v vs ih =>
    rw [List.map_cons, List.foldl_cons]
    show (vs.map some).foldl sum_or_none (some (a + v)) = _
    rw [ih, List.sum_cons, add_assoc]

lemma listReduce_product_values (vs : List ℚ) :
    (listReduce product_or_none (vs.map some)).getD (some 1) = some vs.prod := by
  cases vs with
  | nil => simp [listReduce]
  | cons v vs =>
    rw [List.map_cons]
    show (vs.map some).foldl product_or_none (some v) = some (v :: vs).prod
    rw [foldl_product_values, List.prod_cons]

lemma listReduce_sum_values (vs : List ℚ) :
    (listReduce sum_or_none (vs.map some)).getD (some 0) = some vs.sum := by
  cases vs with
  | nil => simp [listReduce]
  | cons v vs =>
    rw [List.map_cons]
    show (vs.map some).foldl sum_or_none (some v) = some (v :: vs).sum
    rw [foldl_sum_values, List.sum_cons]

lemma capexCostOpt_linear (cri : CostReferenceItem) (parameters : Parameters)
    (base_cost : ℚ) (hcost : cri.capex_contribution.cost = .Linear base_cost)
    (hsupp : ∀ factor ∈ cri.scaling_factors,
      (Parameters.get parameters factor.name).isSome = true) :
    capexCostOpt cri parameters
      = some (base_cost * linearScaleProduct cri parameters) := by
  unfold capexCostOpt
  simp only [hcost]
  have hmaps : cri.scaling_factors.map (fun factor =>
        (Parameters.get parameters factor.name).map
          (fun v => v / factor.source_value))
      = (cri.scaling_factors.map (fun factor =>
          (Parameters.get parameters factor.name).getD 0
            / factor.source_value)).map some := by
    rw [List.map_map]
    apply List.map_congr_left
    intro factor hfactor
    rcases Option.isSome_iff_exists.mp (hsupp factor hfactor) with ⟨v, hv⟩
    simp [hv, Function.comp]
  rw [hmaps, listReduce_product_values]
  rfl

lemma capexCostOpt_polynomial (cri : CostReferenceItem)
    (parameters : Parameters) (parts : List PolynomialPart)
    (hcost : cri.capex_contribution.cost = .Polynomial parts)
    (hsupp : ∀ d c e, PolynomialPart.Variable d c e ∈ parts →
      (Parameters.get parameters d).isSome = true) :
    capexCostOpt cri parameters = some (polynomialTermSum parts parameters) := by
  unfold capexCostOpt
  simp only [hcost]
  have hmaps : parts.map (fun part =>
        match part with
        | PolynomialPart.Variable dimension_name coefficient exponent =>
          (Parameters.get parameters dimension_name).map
            (fun value => coefficient * value * exponent)
        | PolynomialPart.Constant value => some value)
      = (parts.map (fun part =>
          match part with
          | PolynomialPart.Variable dimension_name coefficient exponent =>
            coefficient * (Parameters.get parameters dimension_name).getD 0
              * exponent
          | PolynomialPart.Constant value => value)).map some := by
    rw [List.map_map]
    apply List.map_congr_left
    intro part hpart
    cases part with
    | Variable d c e =>
      rcases Option.isSome_iff_exists.mp (hsupp d c e hpart) with ⟨v, hv⟩
      simp [hv, Function.comp]
    | Constant v => rfl
  rw [hmaps, listReduce_sum_values]
  rfl

/-- Successful currency and inflation lookups turn a computed cost into
`.ok (some (cost * cf * infl))`. -/
lemma capex_ok_of_costOpt (lib : CostLibrary) (cri : CostReferenceItem)
    (parameters : Parameters) (options : CostEstimateOptionsInternal)
    (cost cf infl : ℚ)
    (hopt : capexCostOpt cri parameters = some cost)
    (hcf : get_currency_factor lib cri.capex_contribution.currency options
      = .ok cf)
    (hinfl : get_inflation_factor lib (toString cri.capex_contribution.year)
      = .ok infl) :
    calculate_capex_cost lib cri parameters options
      = .ok (some (cost * cf * infl)) := by
  unfold calculate_capex_cost
  rw [hopt, hcf, hinfl]

/-- C10: for a Linear capital formula with all scaling-factor names supplied,
the capital cost equals base_cost times the product over scaling factors of
supplied[name] / source_value, times the currency and inflation factors; with
a single scaling factor, doubling the supplied parameter doubles the cost. -/
theorem C10_linear_proportionality :
    (∀ (lib : CostLibrary) (cri : CostReferenceItem) (parameters : Parameters)
        (options : CostEstimateOptionsInternal) (base_cost cf infl : ℚ),
      cri.capex_contribution.cost = .Linear base_cost →
      (∀ factor ∈ cri.scaling_factors,
        (Parameters.get parameters factor.name).isSome = true) →
      get_currency_factor lib cri.capex_contribution.currency options = .ok cf →
      get_inflation_factor lib (toString cri.capex_contribution.year) = .ok infl →
      calculate_capex_cost lib cri parameters options
        = .ok (some (base_cost * linearScaleProduct cri parameters * cf * infl))) ∧
    (∀ (lib : CostLibrary) (cri : CostReferenceItem)
        (params1 params2 : Parameters) (options : CostEstimateOptionsInternal)
        (base_cost cf infl v c : ℚ) (factor : CostScalingFactor),
      cri.capex_contribution.cost = .Linear base_cost →
      cri.scaling_factors = [factor] →
      Parameters.get params1 factor.name = some v →
      Parameters.get params2 factor.name = some (2 * v) →
      get_currency_factor lib cri.capex_contribution.currency options = .ok cf →
      get_inflation_factor lib (toString cri.capex_contribution.year) = .ok infl →
      calculate_capex_cost lib cri params1 options = .ok (some c) →
      calculate_capex_cost lib cri params2 options = .ok (some (2 * c))) := by
  have hmain : ∀ (lib : CostLibrary) (cri : CostReferenceItem)
      (parameters : Parameters) (options : CostEstimateOptionsInternal)
      (base_cost cf infl : ℚ),
      cri.capex_contribution.cost = .Linear base_cost →
      (∀ factor ∈ cri.scaling_factors,
        (Parameters.get parameters factor.name).isSome = true) →
      get_currency_factor lib cri.capex_contribution.currency options = .ok cf →
      get_inflation_factor lib (toString cri.capex_contribution.year) = .ok infl →
      calculate_capex_cost lib cri parameters options
        = .ok (some (base_cost * linearScaleProduct cri parameters * cf * infl)) := by
    intro lib cri parameters options base_cost cf infl hcost hsupp hcf hinfl
    exact capex_ok_of_costOpt lib cri parameters options _ cf infl
      (capexCostOpt_linear cri parameters base_cost hcost hsupp) hcf hinfl
  refine ⟨hmain, ?_⟩
  intro lib cri params1 params2 options base_cost cf infl v c factor hcost
    hfactors hv1 hv2 hcf hinfl hc1
  have h1 := hmain lib cri params1 options base_cost cf infl hcost
    (by rw [hfactors]; intro f hf; rw [List.mem_singleton] at hf; subst hf
        rw [hv1]; rfl) hcf hinfl
  have h2 := hmain lib cri params2 options base_cost cf infl hcost
    (by rw [hfactors]; intro f hf; rw [List.mem_singleton] at hf; subst hf
        rw [hv2]; rfl) hcf hinfl
  rw [hc1] at h1
  have hcv : c = base_cost * linearScaleProduct cri params1 * cf * infl := by
    have := congrArg (fun o => match o with
      | Outcome.ok (some x) => x
      | _ => 0) h1
    simpa using this
  rw [h2, hcv]
  unfold linearScaleProduct
  rw [hfactors]
  simp only [List.map_cons, List.map_nil, List.prod_cons, List.prod_nil, hv1, hv2]
  simp only [Option.getD_some]
  ring_nf

/-- Witness for C10: the scenario item (two scaling factors) evaluates to
the product formula, and doubling the single supplied parameter of a
one-factor item doubles the capital cost. -/
theorem C10_witness :
    calculate_capex_cost scenarioLibrary scenarioItem scenarioParams ⟨1⟩
      = .ok (some (100 * linearScaleProduct scenarioItem scenarioParams
        * (1 * 1) * 1)) ∧
    calculate_capex_cost scenarioLibrary singleFactorItem [("length", 2 * 10)] ⟨1⟩
      = .ok (some (2 * (100 * linearScaleProduct singleFactorItem [("length", 10)]
        * (1 * 1) * 1))) := by
  constructor
  · exact C10_linear_proportionality.1 scenarioLibrary scenarioItem
      scenarioParams ⟨1⟩ 100 (1 * 1) 1 rfl (by decide) rfl rfl
  · apply C10_linear_proportionality.2 scenarioLibrary singleFactorItem
      [("length", 10)] [("length", 2 * 10)] ⟨1⟩ 100 (1 * 1) 1 10 _ ⟨"length", "m", 50⟩
      rfl rfl rfl rfl rfl rfl
    exact C10_linear_proportionality.1 scenarioLibrary singleFactorItem
      [("length", 10)] ⟨1⟩ 100 (1 * 1) 1 rfl (by decide) rfl rfl

/-- C7: for a Polynomial capital formula with all term dimension names
supplied, the pre-conversion capital cost is the sum over terms — a constant
term contributes its value, a variable term contributes
coefficient × supplied[dimension] × exponent (linear in the parameter times
the exponent, not the parameter raised to the exponent) — and the sum is
multiplied by the currency and inflation factors. -/
theorem C7_polynomial_formula (lib : CostLibrary) (cri : CostReferenceItem)
    (parameters : Parameters) (options : CostEstimateOptionsInternal)
    (parts : List PolynomialPart) (cf infl : ℚ)
    (hcost : cri.capex_contribution.cost = .Polynomial parts)
    (hsupp : ∀ d c e, PolynomialPart.Variable d c e ∈ parts →
      (Parameters.get parameters d).isSome = true)
    (hcf : get_currency_factor lib cri.capex_contribution.currency options
      = .ok cf)
    (hinfl : get_inflation_factor lib (toString cri.capex_contribution.year)
      = .ok infl) :
    calculate_capex_cost lib cri parameters options
      = .ok (some (polynomialTermSum parts parameters * cf * infl)) :=
  capex_ok_of_costOpt lib cri parameters options _ cf infl
    (capexCostOpt_polynomial cri parameters parts hcost hsupp) hcf hinfl

/-- Witness for C7: the polynomial item with term 1·x·1 under x = 5
evaluates to the term sum times the currency and inflation factors. -/
theorem C7_witness :
    calculate_capex_cost scenarioLibrary polyPanicItem [("x", 5)] ⟨1⟩
      = .ok (some (polynomialTermSum [.Variable "x" 1 1] [("x", 5)]
        * (1 * 1) * 1)) := by
  apply C7_polynomial_formula scenarioLibrary polyPanicItem [("x", 5)] ⟨1⟩
    [.Variable "x" 1 1] (1 * 1) 1 rfl _ rfl rfl
  intro d c e h
  rw [List.mem_singleton] at h
  injection h with h1 h2 h3
  subst h1
  rfl

-- ## Scenario sub-computations (shared by witnesses)

lemma scenario_capex :
    calculate_capex_cost scenarioLibrary scenarioItem scenarioParams ⟨1⟩
      = .ok (some 120) := by
  have hyear : toString (2024 : ℤ) = "2024" := rfl
  simp [calculate_capex_cost, capexCostOpt, scenarioItem, scenarioLibrary,
    scenarioParams, listReduce, product_or_none, Parameters.get, mapGet,
    get_currency_factor, get_inflation_factor, hyear]
  norm_num

lemma scenario_dec :
    calculate_direct_equipment_cost scenarioLibrary scenarioItem
      scenarioParams ⟨1⟩ = .ok (some 120) := by
  have hdef : (default : CostReferenceItemCostType) = .DirectEquipmentCost := rfl
  simp [calculate_direct_equipment_cost, costTypeOrDefault, hdef,
    scenario_capex, show scenarioItem.info = ⟨none⟩ from rfl]

lemma scenario_tic :
    calculate_total_installed_cost scenarioLibrary scenarioItem
      scenarioParams ⟨1⟩ = .ok none := by
  have hdef : (default : CostReferenceItemCostType) = .DirectEquipmentCost := rfl
  simp [calculate_total_installed_cost, costTypeOrDefault, hdef,
    show scenarioItem.info = ⟨none⟩ from rfl]

lemma scenario_voc :
    calculate_variable_opex_cost scenarioLibrary scenarioItem
      scenarioParams ⟨1⟩ = .ok VariableOpexCostEstimate.default := by
  simp [calculate_variable_opex_cost, variable_opex_category,
    calculate_variable_opex_cost_item,
    show scenarioItem.variable_opex_contributions = [] from rfl,
    VariableOpexCostEstimate.default]

lemma scenario_get_costs :
    scenarioLinked.get_costs ⟨1⟩ = .ok scenarioItemCosts := by
  simp [LinkedCostItem.get_costs, scenarioLinked, Outcome.bind,
    Outcome.ofExcept, scenario_dec, scenario_tic, scenario_voc,
    scenarioItemCosts, VariableOpexCostEstimate.scale,
    VariableOpexCostEstimate.default]

-- ## C6: the cost-type invariant

lemma capex_ok_isSome (lib : CostLibrary) (cri : CostReferenceItem)
    (parameters : Parameters) (options : CostEstimateOptionsInternal)
    (x : Option ℚ)
    (h : calculate_capex_cost lib cri parameters options = .ok x) :
    x.isSome = true := by
  unfold calculate_capex_cost at h
  split at h
  · exact absurd h (by simp)
  · split at h
    · exact absurd h (by simp)
    · split at h
      · exact absurd h (by simp)
      · injection h with h1
        rw [← h1]
        rfl

/-- C6: for every linked cost item whose cost computation succeeds, the
direct-equipment cost is non-null exactly when the item's cost-type
classifier (defaulted) is DirectEquipmentCost, the total-installed cost is
non-null exactly when it is TotalInstalledCost, and exactly one of the two
is non-null. -/
theorem C6_exactly_one_cost_type (item : LinkedCostItem)
    (options : CostEstimateOptionsInternal) (c : CostItemCosts)
    (h : item.get_costs options = .ok c) :
    (c.direct_equipment_cost.isSome = true ↔
      costTypeOrDefault item.cost_reference_item = .DirectEquipmentCost) ∧
    (c.total_installed_cost.isSome = true ↔
      costTypeOrDefault item.cost_reference_item = .TotalInstalledCost) ∧
    (c.direct_equipment_cost.isSome = true ↔ c.total_installed_cost = none) := by
  unfold LinkedCostItem.get_costs at h
  cases hA : calculate_direct_equipment_cost item.cost_library
      item.cost_reference_item item.parameters options with
  | err e => rw [hA] at h; exact absurd h (by simp [Outcome.bind])
  | panic => rw [hA] at h; exact absurd h (by simp [Outcome.bind])
  | ok dec =>
    rw [hA] at h
    cases hB : calculate_total_installed_cost item.cost_library
        item.cost_reference_item item.parameters options with
    | err e => rw [hB] at h; exact absurd h (by simp [Outcome.bind])
    | panic => rw [hB] at h; exact absurd h (by simp [Outcome.bind])
    | ok tic =>
      rw [hB] at h
      cases hC : calculate_variable_opex_cost item.cost_library
          item.cost_reference_item item.parameters options with
      | error e =>
        rw [hC] at h; exact absurd h (by simp [Outcome.bind, Outcome.ofExcept])
      | ok voc =>
        rw [hC] at h
        simp only [Outcome.bind, Outcome.ofExcept] at h
        injection h with h1
        subst h1
        unfold calculate_direct_equipment_cost at hA
        unfold calculate_total_installed_cost at hB
        cases hty : costTypeOrDefault item.cost_reference_item with
        | DirectEquipmentCost =>
          rw [hty] at hA hB
          rw [if_pos rfl] at hA
          rw [if_neg (by simp)] at hB
          injection hB with hB1
          have hdec := capex_ok_isSome _ _ _ _ _ hA
          rcases Option.isSome_iff_exists.mp hdec with ⟨v, rfl⟩
          subst hB1
          refine ⟨by simp, by simp, by simp⟩
        | TotalInstalledCost =>
          rw [hty] at hA hB
          rw [if_neg (by simp)] at hA
          rw [if_pos rfl] at hB
          injection hA with hA1
          have htic := capex_ok_isSome _ _ _ _ _ hB
          rcases Option.isSome_iff_exists.mp htic with ⟨v, rfl⟩
          subst hA1
          refine ⟨by simp, by simp, by simp⟩

/-- Witness for C6: the scenario item is a DirectEquipmentCost item, so its
computed costs have a non-null direct-equipment cost and a null
total-installed cost. -/
theorem C6_witness :
    (scenarioItemCosts.direct_equipment_cost.isSome = true ↔
      costTypeOrDefault scenarioLinked.cost_reference_item
        = .DirectEquipmentCost) ∧
    (scenarioItemCosts.total_installed_cost.isSome = true ↔
      costTypeOrDefault scenarioLinked.cost_reference_item
        = .TotalInstalledCost) ∧
    (scenarioItemCosts.direct_equipment_cost.isSome = true ↔
      scenarioItemCosts.total_installed_cost = none) :=
  C6_exactly_one_cost_type scenarioLinked ⟨1⟩ scenarioItemCosts
    scenario_get_costs

/-- C9: the DCF discount factor 1 / (1 + discount_rate)^(year − start) is
exactly 1 at the construction-start year for any discount rate, and is
strictly decreasing in the year, for years from construction start on,
whenever the discount rate is strictly positive. -/
theorem C9_dcf_factor :
    (∀ (discount_rate : ℚ) (start_year : ℤ),
      dcf_factor discount_rate start_year start_year = 1) ∧
    (∀ discount_rate : ℚ, 0 < discount_rate →
      ∀ start_year y1 y2 : ℤ, start_year ≤ y1 → y1 < y2 →
        dcf_factor discount_rate y2 start_year
          < dcf_factor discount_rate y1 start_year) := by
  constructor
  · intro r s
    unfold dcf_factor powi
    rw [sub_self]
    norm_num
  · intro r hr s y1 y2 h1 h12
    unfold dcf_factor powi
    rw [if_pos (by omega : (0:ℤ) ≤ y1 - s), if_pos (by omega : (0:ℤ) ≤ y2 - s)]
    have hbase : (1 : ℚ) < 1 + r := by linarith
    have hpow : (1 + r) ^ (y1 - s).toNat < (1 + r) ^ (y2 - s).toNat := by
      apply pow_lt_pow_right₀ hbase
      omega
    exact one_div_lt_one_div_of_lt (by positivity) hpow

/-- Witness for C9: with discount rate 1 the factor is 1 at the start year
2025 and smaller at 2026. -/
theorem C9_witness :
    dcf_factor 1 2025 2025 = 1 ∧ dcf_factor 1 2026 2025 < dcf_factor 1 2025 2025 :=
  ⟨C9_dcf_factor.1 1 2025,
   C9_dcf_factor.2 1 zero_lt_one 2025 2025 2026 (by decide) (by decide)⟩

/-- C4: estimation is all-or-nothing.  If any of an asset's cost items fails
to link, no calculation is attempted: the asset evaluates to a single error
combining all linking errors, in order, and no partial estimate exists.  At
the request level, if any asset fails (and none panics), the response is a
single DataError combining all per-asset errors, with no partial result
set. -/
theorem C4_all_or_nothing :
    (∀ (lib : CostLibrary) (asset : AssetParameters)
        (options : CostEstimateOptionsInternal)
        (e : CostEstimateError) (rest : List CostEstimateError),
      (linkAssetCostItems lib asset).2 = e :: rest →
      estimate_asset_cost lib asset options = .err (combineErrors e rest)) ∧
    (∀ (lib : CostLibrary) (assets : List AssetParameters)
        (target_currency : Option String)
        (internal_options : CostEstimateOptionsInternal)
        (e : CostEstimateError) (rest : List CostEstimateError),
      convert_to_internal target_currency lib = .ok internal_options →
      (assetResultsOf lib assets internal_options).any
        (fun r => r.isPanic) = false →
      (partitionAssetResults (assetResultsOf lib assets internal_options)).2
        = e :: rest →
      estimate_cost lib assets target_currency
        = .DataError (combineErrors e rest)) := by
  constructor
  · intro lib asset options e rest h
    simp only [estimate_asset_cost, h]
  · intro lib assets target_currency internal_options e rest hconv hnopanic hpart
    simp only [estimate_cost, hconv, hnopanic, hpart, Bool.false_eq_true,
      if_false]

/-- Witness for C4: an asset referencing the unknown item `Nope` makes the
whole asset, and the whole request, evaluate to the single combined error. -/
theorem C4_witness :
    estimate_asset_cost scenarioLibrary badAsset ⟨1⟩
      = .err (combineErrors (.UnknownCostItem "cx") []) ∧
    estimate_cost scenarioLibrary [badAsset] none
      = .DataError (combineErrors (.UnknownCostItem "cx") []) := by
  constructor
  · exact C4_all_or_nothing.1 scenarioLibrary badAsset ⟨1⟩
      (.UnknownCostItem "cx") [] rfl
  · exact C4_all_or_nothing.2 scenarioLibrary [badAsset] none ⟨1/1⟩
      (.UnknownCostItem "cx") [] rfl rfl rfl

-- ## C8: spreading lemmas

lemma yearRange_cons (lo hi : ℤ) (h : lo ≤ hi) :
    yearRange lo hi = lo :: yearRange (lo + 1) hi := by
  unfold yearRange
  have hn : (hi + 1 - lo).toNat = (hi + 1 - (lo + 1)).toNat + 1 := by omega
  rw [hn, List.range_succ_eq_map, List.map_cons, List.map_map]
  refine congrArg₂ List.cons (by simp) ?_
  apply List.map_congr_left
  intro i _
  simp [Function.comp]
  omega

lemma yearRange_nil (lo hi : ℤ) (h : hi < lo) : yearRange lo hi = [] := by
  unfold yearRange
  have hn : (hi + 1 - lo).toNat = 0 := by omega
  rw [hn]
  rfl

lemma countP_yearRange (a b : ℤ) : ∀ (n : ℕ) (lo hi : ℤ),
    (hi + 1 - lo).toNat = n →
    (yearRange lo hi).countP (fun y => rangeContains a b y)
      = rangeLen (max lo a) (min hi b) := by
  intro n
  induction n with
  | zero =>
    intro lo hi hn
    rw [yearRange_nil lo hi (by omega)]
    unfold rangeLen
    simp only [List.countP_nil]
    omega
  | succ m ih =>
    intro lo hi hn
    have hlohi : lo ≤ hi := by omega
    rw [yearRange_cons lo hi hlohi]
    rw [List.countP_cons]
    rw [ih (lo + 1) hi (by omega)]
    unfold rangeLen rangeContains
    by_cases hab : a ≤ lo ∧ lo ≤ b
    · rw [decide_eq_true hab]
      simp only [if_true]
      omega
    · rw [decide_eq_false hab]
      simp only [Bool.false_eq_true, if_false, add_zero]
      omega

lemma addOptions_foldl_some (p : ℤ → Bool) (d a : ℚ) :
    ∀ l : List ℤ,
      (l.map (fun y => if p y then some d else none)).foldl add_options (some a)
        = some (a + (l.countP p : ℚ) * d) := by
  intro l
  induction l generalizing a with
  | nil => simp
  | cons y ys ih =>
    rw [List.map_cons, List.foldl_cons, List.countP_cons]
    by_cases hy : p y = true
    · rw [if_pos hy]
      show (ys.map (fun y => if p y then some d else none)).foldl add_options
        (some (a + d)) = _
      rw [ih]
      rw [hy]
      simp only [if_true]
      push_cast
      ring_nf
    · rw [if_neg hy]
      show (ys.map (fun y => if p y then some d else none)).foldl add_options
        (some a) = _
      rw [ih]
      have : p y = false := by
        cases hpy : p y
        · rfl
        · exact absurd hpy hy
      rw [this]
      norm_num

lemma addOptions_foldl_none (p : ℤ → Bool) (d : ℚ) :
    ∀ l : List ℤ,
      (l.map (fun y => if p y then some d else none)).foldl add_options none
        = if l.countP p = 0 then none
          else some ((l.countP p : ℚ) * d) := by
  intro l
  induction l with
  | nil => simp
  | cons y ys ih =>
    rw [List.map_cons, List.foldl_cons, List.countP_cons]
    by_cases hy : p y = true
    · rw [if_pos hy]
      show (ys.map (fun y => if p y then some d else none)).foldl add_options
        (some d) = _
      rw [addOptions_foldl_some]
      rw [hy]
      have hne : ys.countP p + 1 ≠ 0 := by omega
      norm_num
      ring_nf
    · rw [if_neg hy]
      show (ys.map (fun y => if p y then some d else none)).foldl add_options
        none = _
      rw [ih]
      have hpy : p y = false := by
        cases hpy : p y
        · rfl
        · exact absurd hpy hy
      rw [hpy]
      norm_num

lemma addOptions_foldl_allnone :
    ∀ l : List ℤ,
      (l.map (fun _ => (none : Option ℚ))).foldl add_options none = none := by
  intro l
  induction l with
  | nil => rfl
  | cons y ys ih =>
    rw [List.map_cons, List.foldl_cons]
    exact ih

lemma foldl_add_component_dec (l : List CostItemPeriodCosts)
    (acc : CostItemPeriodCosts) :
    (l.foldl CostItemPeriodCosts.add acc).direct_equipment_cost
      = (l.map (fun c => c.direct_equipment_cost)).foldl add_options
        acc.direct_equipment_cost := by
  induction l generalizing acc with
  | nil => rfl
  | cons c cs ih =>
    rw [List.foldl_cons, List.map_cons, List.foldl_cons]
    exact ih _

lemma foldl_add_component_tic (l : List CostItemPeriodCosts)
    (acc : CostItemPeriodCosts) :
    (l.foldl CostItemPeriodCosts.add acc).total_installed_cost
      = (l.map (fun c => c.total_installed_cost)).foldl add_options
        acc.total_installed_cost := by
  induction l generalizing acc with
  | nil => rfl
  | cons c cs ih =>
    rw [List.foldl_cons, List.map_cons, List.foldl_cons]
    exact ih _

/-- C8: spreading a cost item's costs over the timeline assigns to each
construction-range year the capital costs divided by the construction range
length — so the fold of the per-year values over the whole timeline
recovers the pre-spread totals exactly — assigns the variable-opex cost
unchanged to every operation-range year, and leaves every category
null/zero outside its range. -/
theorem C8_spread_round_trip (costs : CostItemCosts) (t : Timeline)
    (hcc : t.construction_start ≤ t.construction_finish)
    (hce : t.construction_finish ≤ t.end_) :
    ((((costs.spread t).map Prod.snd).foldl CostItemPeriodCosts.add
        CostItemPeriodCosts.default).direct_equipment_cost
      = costs.direct_equipment_cost) ∧
    ((((costs.spread t).map Prod.snd).foldl CostItemPeriodCosts.add
        CostItemPeriodCosts.default).total_installed_cost
      = costs.total_installed_cost) ∧
    (∀ y c, (y, c) ∈ costs.spread t →
      (c.variable_opex_cost = if t.operation_contains y then
          costs.variable_opex_cost_per_year
        else VariableOpexCostEstimate.default) ∧
      (t.construction_contains y = true →
        c.direct_equipment_cost = costs.direct_equipment_cost.map
            (fun v => v / (t.construction_len : ℚ)) ∧
        c.total_installed_cost = costs.total_installed_cost.map
            (fun v => v / (t.construction_len : ℚ))) ∧
      (t.construction_contains y = false →
        c.direct_equipment_cost = none ∧ c.total_installed_cost = none)) := by
  have hcount : (yearRange t.start t.end_).countP
      (fun y => t.construction_contains y) = t.construction_len := by
    unfold Timeline.construction_contains
    rw [countP_yearRange t.construction_start t.construction_finish
      ((t.end_ + 1 - t.start).toNat) t.start t.end_ rfl]
    unfold Timeline.construction_len rangeLen Timeline.start Timeline.end_ at *
    omega
  have hlen_ne : t.construction_len ≠ 0 := by
    unfold Timeline.construction_len rangeLen at *
    omega
  refine ⟨?_, ?_, ?_⟩
  · rw [foldl_add_component_dec]
    have hmap : (((costs.spread t).map Prod.snd).map
          (fun c => c.direct_equipment_cost))
        = (yearRange t.start t.end_).map (fun y =>
            if t.construction_contains y then
              costs.direct_equipment_cost.map
                (fun v => v / (t.construction_len : ℚ))
            else none) := by
      unfold CostItemCosts.spread
      rw [List.map_map, List.map_map]
      rfl
    rw [hmap]
    cases hdec : costs.direct_equipment_cost with
    | none =>
      have hnone : ((yearRange t.start t.end_).map (fun y =>
            if t.construction_contains y then
              (none : Option ℚ).map (fun v => v / (t.construction_len : ℚ))
            else none))
          = (yearRange t.start t.end_).map (fun _ => (none : Option ℚ)) := by
        apply List.map_congr_left
        intro y _
        simp
      rw [hnone]
      exact addOptions_foldl_allnone _
    | some v =>
      show ((yearRange t.start t.end_).map (fun y =>
          if t.construction_contains y then
            some (v / (t.construction_len : ℚ)) else none)).foldl add_options
          none = some v
      rw [addOptions_foldl_none]
      rw [hcount]
      rw [if_neg hlen_ne]
      congr 1
      rw [mul_comm]
      exact div_mul_cancel₀ v (by exact_mod_cast hlen_ne)
  · rw [foldl_add_component_tic]
    have hmap : (((costs.spread t).map Prod.snd).map
          (fun c => c.total_installed_cost))
        = (yearRange t.start t.end_).map (fun y =>
            if t.construction_contains y then
              costs.total_installed_cost.map
                (fun v => v / (t.construction_len : ℚ))
            else none) := by
      unfold CostItemCosts.spread
      rw [List.map_map, List.map_map]
      rfl
    rw [hmap]
    cases htic : costs.total_installed_cost with
    | none =>
      have hnone : ((yearRange t.start t.end_).map (fun y =>
            if t.construction_contains y then
              (none : Option ℚ).map (fun v => v / (t.construction_len : ℚ))
            else none))
          = (yearRange t.start t.end_).map (fun _ => (none : Option ℚ)) := by
        apply List.map_congr_left
        intro y _
        simp
      rw [hnone]
      exact addOptions_foldl_allnone _
    | some v =>
      show ((yearRange t.start t.end_).map (fun y =>
          if t.construction_contains y then
            some (v / (t.construction_len : ℚ)) else none)).foldl add_options
          none = some v
      rw [addOptions_foldl_none]
      rw [hcount]
      rw [if_neg hlen_ne]
      congr 1
      rw [mul_comm]
      exact div_mul_cancel₀ v (by exact_mod_cast hlen_ne)
  · intro y c hmem
    unfold CostItemCosts.spread at hmem
    simp only [List.mem_map] at hmem
    obtain ⟨y0, hy0, heq⟩ := hmem
    rw [Prod.mk.injEq] at heq
    obtain ⟨rfl, rfl⟩ := heq
    refine ⟨rfl, ?_, ?_⟩
    · intro hcy
      constructor
      · show (if (Timeline.construction_contains t y0) = true then _ else none) = _
        rw [hcy]
        simp
      · show (if (Timeline.construction_contains t y0) = true then _ else none) = _
        rw [hcy]
        simp
    · intro hcy
      constructor
      · show (if (Timeline.construction_contains t y0) = true then _ else none) = none
        rw [hcy]
        simp
      · show (if (Timeline.construction_contains t y0) = true then _ else none) = none
        rw [hcy]
        simp

/-- Witness for C8: for the scenario item costs and timeline, folding the
spread per-year costs recovers the original direct-equipment and
total-installed costs. -/
theorem C8_witness :
    ((((scenarioItemCosts.spread scenarioTimeline).map Prod.snd).foldl
        CostItemPeriodCosts.add
        CostItemPeriodCosts.default).direct_equipment_cost
      = scenarioItemCosts.direct_equipment_cost) ∧
    ((((scenarioItemCosts.spread scenarioTimeline).map Prod.snd).foldl
        CostItemPeriodCosts.add
        CostItemPeriodCosts.default).total_installed_cost
      = scenarioItemCosts.total_installed_cost) :=
  ⟨(C8_spread_round_trip scenarioItemCosts scenarioTimeline (by decide)
      (by decide)).1,
   (C8_spread_round_trip scenarioItemCosts scenarioTimeline (by decide)
      (by decide)).2.1⟩
